import Mathlib

/-!
# Ultima 8 `GameData`: the typed archive wrapper and its load sequence

A shallow embedding of `engines/ultima/ultima8/games/game_data.cpp`.

* Pointers are `Option`s (`none` is `nullptr`).
* Heap objects of classes whose code lives in other translation units
  (`RawArchive`, `ShapeArchive`, `Shape`, ...) are symbolic records of the
  constructor arguments they were built from; their methods are the fields of
  `Externals`, taken as parameters.
* Stream objects (`IDataSource`) carry a handle, the identity of the heap
  object, next to the bytes they read.
* The stateful procedures run on a `World`: the `GameData` fields, the
  allocator of stream handles and the chronological trace of what the
  procedure did with streams.
-/

namespace Ultima8

/-! ## Data model -/

/-- The bytes a stream reads. -/
abbrev Bytes := List Nat

/-- An `IDataSource` object: `handle` is the identity of the heap object,
`bytes` the data it reads. -/
structure IDataSource where
  handle : Nat
  bytes : Bytes
deriving DecidableEq, Repr

/-- The member `IDataSource::getSize()`. -/
def IDataSource.getSize (ds : IDataSource) : Nat := ds.bytes.length

/-- The enumerators `MAINSHAPES`, `GUMPS` and `OTHER` of `game_data.h`; their
numeric values are not part of the translated source and are parameters. -/
structure ShapeFlexId where
  MAINSHAPES : Nat
  GUMPS : Nat
  OTHER : Nat
deriving DecidableEq, Repr

/-- The classes whose constructors the loaders call with a stream. -/
inductive Kind where
  | RawArchive
  | UsecodeFlex
  | MainShapeArchive
  | FontShapeArchive
  | GumpShapeArchive
  | Shape
  | MusicFlex
  | SoundFlex
  | SpeechFlex
deriving DecidableEq, Repr

/-- A `RawArchive` object, `new RawArchive(ids)`. -/
structure RawArchive where
  ids : Option IDataSource
deriving DecidableEq, Repr

/-- A `UsecodeFlex` object, `new UsecodeFlex(ids)`. -/
structure UsecodeFlex where
  ids : Option IDataSource
deriving DecidableEq, Repr

/-- A `ShapeArchive` object (`MainShapeArchive`, `FontShapeArchive` or
`GumpShapeArchive`, recorded in `cls`), `new Cls(ids, flexId, pal)`;
`loaded` lists the data later read into it (`loadTypeFlags`, `loadAnimDat`,
`loadGumpage`), oldest first. -/
structure ShapeArchive where
  cls : Kind
  ids : Option IDataSource
  flexId : Nat
  loaded : List (Option Bytes)
deriving DecidableEq, Repr

/-- A `Shape` object: `src` is the stream it was read from when it was built by
`new Shape(src, 0)`; `flexId` and `shapeNum` say where it sits when an archive
holds it. -/
structure Shape where
  src : Option IDataSource
  flexId : Nat
  shapeNum : Nat
deriving DecidableEq, Repr

/-- A `ShapeFrame` object, known by the shape and frame number it decodes. -/
structure ShapeFrame where
  shape : Shape
  frameNum : Nat
deriving DecidableEq, Repr

/-- A `MapGlob` object after `glob->read(globds)`. -/
structure MapGlob where
  readFrom : Bytes
deriving DecidableEq, Repr

/-- A `WpnOvlayDat` object after `load(overlayflex)`. -/
structure WpnOvlayDat where
  loadedFrom : RawArchive
deriving DecidableEq, Repr

/-- A `MusicFlex` object, `new MusicFlex(ids)`. -/
structure MusicFlex where
  ids : Option IDataSource
deriving DecidableEq, Repr

/-- A `SoundFlex` object, `new SoundFlex(ids)`. -/
structure SoundFlex where
  ids : Option IDataSource
deriving DecidableEq, Repr

/-- A `SpeechFlex` object, `new SpeechFlex(ids)`. -/
structure SpeechFlex where
  ids : Option IDataSource
deriving DecidableEq, Repr

/-- The enumeration `GameInfo::GameType`, as far as `loadTranslation` tells its
values apart. -/
inductive GameType where
  | GAME_U8
  | GAME_OTHER
deriving DecidableEq, Repr

/-- The enumeration `GameInfo::GameLanguage`, as far as `loadTranslation` tells
its values apart. -/
inductive GameLanguage where
  | GAMELANG_ENGLISH
  | GAMELANG_FRENCH
  | GAMELANG_GERMAN
  | GAMELANG_SPANISH
  | GAMELANG_JAPANESE
  | GAMELANG_OTHER
deriving DecidableEq, Repr

/-- The `GameInfo` object behind `_gameInfo`. The two letter members are
declared in `game_info.h`, outside the translated source: their results are
fields here, the character code `0` meaning that the language is unknown. -/
structure GameInfo where
  _type : GameType
  _language : GameLanguage
  getLanguageUsecodeLetter : Char
  getLanguageFileLetter : Char
deriving DecidableEq, Repr

/-- A `FrameID`: archive kind, shape number, frame number. -/
structure FrameID where
  _flexId : Nat
  _shapeNum : Nat
  _frameNum : Nat
deriving DecidableEq, Repr

/-- The data members of `GameData`. `_speech` is a vector of `SpeechFlex **`:
a slot is `none` (never looked up), `some none` (looked up, no speech file)
or `some (some flex)`. -/
structure GameData where
  _fixed : Option RawArchive
  _mainShapes : Option ShapeArchive
  _mainUsecode : Option UsecodeFlex
  _globs : List (Option MapGlob)
  _fonts : Option ShapeArchive
  _gumps : Option ShapeArchive
  _mouse : Option Shape
  _music : Option MusicFlex
  _weaponOverlay : Option WpnOvlayDat
  _soundFlex : Option SoundFlex
  _speech : List (Option (Option SpeechFlex))
  _gameInfo : GameInfo
deriving DecidableEq, Repr

/-- Collaborators defined outside the translated source, taken as parameters:
the file system, the enumerators of `game_data.h`, and the members of
`RawArchive`, `ShapeArchive` and `Shape` that `GameData` calls. -/
structure Externals where
  /-- The result of `FileSystem::ReadFile(path)`: the bytes of the file, or absent. -/
  ReadFile : String → Option Bytes
  /-- The enumerators `MAINSHAPES`, `GUMPS`, `OTHER`. -/
  flex : ShapeFlexId
  /-- The member `RawArchive::getCount()`. -/
  getCount : RawArchive → Nat
  /-- The member `RawArchive::get_datasource(i)`: the bytes of the new stream, or absent. -/
  get_datasource : RawArchive → Nat → Option Bytes
  /-- The member `ShapeArchive::getShape(shapeNum)`. -/
  archiveGetShape : ShapeArchive → Nat → Option Shape
  /-- The member `Shape::getFrame(frameNum)`. -/
  shapeGetFrame : Shape → Nat → Option ShapeFrame

/-- The constructor `GameData::GameData(gameInfo)`: every pointer member is
`nullptr`, `_globs` is empty and `_speech` is resized to 1024 null slots. -/
def GameData.new (gameInfo : GameInfo) : GameData :=
  { _fixed := none, _mainShapes := none, _mainUsecode := none, _globs := [],
    _fonts := none, _gumps := none, _mouse := none, _music := none,
    _weaponOverlay := none, _soundFlex := none,
    _speech := List.replicate 1024 none, _gameInfo := gameInfo }

/-! ## The const queries -/

/-- The member `GameData::getGlob(glob)`. -/
def GameData.getGlob (gd : GameData) (glob : Nat) : Option MapGlob :=
  if h : glob < gd._globs.length then
    gd._globs.get ⟨glob, h⟩
  else
    none

/-- The member `GameData::getShapeFlex(flexId)`: a `switch` whose first label is
`MAINSHAPES` and whose second is `GUMPS`. -/
def GameData.getShapeFlex (ext : Externals) (gd : GameData) (flexId : Nat) :
    Option ShapeArchive :=
  if flexId = ext.flex.MAINSHAPES then
    gd._mainShapes
  else if flexId = ext.flex.GUMPS then
    gd._gumps
  else
    none

/-- The member `GameData::getShape(f)`. -/
def GameData.getShape (ext : Externals) (gd : GameData) (f : FrameID) : Option Shape :=
  match gd.getShapeFlex ext f._flexId with
  | none => none
  | some sf => ext.archiveGetShape sf f._shapeNum

/-- The member `GameData::getFrame(f)`. -/
def GameData.getFrame (ext : Externals) (gd : GameData) (f : FrameID) : Option ShapeFrame :=
  match gd.getShape ext f with
  | none => none
  | some shape => ext.shapeGetFrame shape f._frameNum

/-! ## Worlds, traces and procedures -/

/-- What a procedure did with streams and archives, in the order it did it. -/
inductive Event where
  /-- The call `filesystem->ReadFile(path)` returned `result`. -/
  | openFile (path : String) (result : Option IDataSource)
  /-- The expression `new cls(ids, ...)` was evaluated. -/
  | construct (cls : Kind) (ids : Option IDataSource)
  /-- The call `globflex->get_datasource(index)` returned `result`. -/
  | getDatasource (index : Nat) (result : Option IDataSource)
  /-- The statement `delete ids` was executed on a stream pointer. -/
  | release (ids : Option IDataSource)
  /-- The statement `delete archive` was executed on an archive built from `ids`. -/
  | destroy (cls : Kind) (ids : Option IDataSource)
  /-- The call `config->readConfigFile(path, root, true)`. -/
  | readConfigFile (path : String) (root : String)
deriving DecidableEq, Repr

/-- The state the procedures of `GameData` run on. -/
structure World where
  gd : GameData
  nextHandle : Nat
  trace : List Event
deriving DecidableEq, Repr

/-- A world with an empty trace. -/
def World.start (gd : GameData) (nextHandle : Nat) : World :=
  { gd := gd, nextHandle := nextHandle, trace := [] }

/-- How a procedure ends: it returns, or it calls `error(msg)`, which does not
return. -/
inductive Outcome (α : Type) where
  | done (value : α) (w : World)
  | fatal (msg : String) (w : World)
deriving DecidableEq, Repr

/-- The world a procedure ended in. -/
def Outcome.world {α : Type} : Outcome α → World
  | .done _ w => w
  | .fatal _ w => w

/-- The message of the fatal error a procedure ended with, if it did. -/
def Outcome.fatalMsg {α : Type} : Outcome α → Option String
  | .done _ _ => none
  | .fatal msg _ => some msg

/-- The value a procedure returned, if it returned. -/
def Outcome.value {α : Type} : Outcome α → Option α
  | .done a _ => some a
  | .fatal _ _ => none

/-- A procedure: a function from the world before to the outcome. -/
def Proc (α : Type) : Type := World → Outcome α

/-- Sequencing: a fatal error skips the rest. -/
def Proc.bind {α β : Type} (m : Proc α) (f : α → Proc β) : Proc β :=
  fun w =>
    match m w with
    | .done a w1 => f a w1
    | .fatal msg w1 => .fatal msg w1

instance : Monad Proc where
  pure a := fun w => .done a w
  bind := Proc.bind

/-- The noreturn function `error(msg)`. -/
def error {α : Type} (msg : String) : Proc α := fun w => .fatal msg w

/-- Read the `GameData` members. -/
def getGD : Proc GameData := fun w => .done w.gd w

/-- Assign `GameData` members. -/
def modifyGD (f : GameData → GameData) : Proc Unit :=
  fun w => .done () { w with gd := f w.gd }

/-- Append an event to the trace. -/
def emit (e : Event) : Proc Unit :=
  fun w => .done () { w with trace := w.trace ++ [e] }

/-- The call `filesystem->ReadFile(path)`: a new stream object, or `nullptr`. -/
def ReadFile (ext : Externals) (path : String) : Proc (Option IDataSource) :=
  fun w =>
    match ext.ReadFile path with
    | none => .done none { w with trace := w.trace ++ [Event.openFile path none] }
    | some b =>
      let ds : IDataSource := { handle := w.nextHandle, bytes := b }
      .done (some ds)
        { w with nextHandle := w.nextHandle + 1, trace := w.trace ++ [Event.openFile path (some ds)] }

/-- The call `globflex->get_datasource(index)`: a new stream object, or `nullptr`. -/
def get_datasource (ext : Externals) (globflex : RawArchive) (index : Nat) :
    Proc (Option IDataSource) :=
  fun w =>
    match ext.get_datasource globflex index with
    | none => .done none { w with trace := w.trace ++ [Event.getDatasource index none] }
    | some b =>
      let ds : IDataSource := { handle := w.nextHandle, bytes := b }
      .done (some ds)
        { w with nextHandle := w.nextHandle + 1,
                 trace := w.trace ++ [Event.getDatasource index (some ds)] }

/-- The statement `delete ids` on a stream pointer. -/
def release (ids : Option IDataSource) : Proc Unit := emit (Event.release ids)

/-- The expression `new RawArchive(ids)`. -/
def newRawArchive (ids : Option IDataSource) : Proc RawArchive := do
  emit (Event.construct Kind.RawArchive ids)
  pure { ids := ids }

/-- The statement `delete archive` on a `RawArchive`. -/
def deleteRawArchive (a : RawArchive) : Proc Unit := emit (Event.destroy Kind.RawArchive a.ids)

/-- The expression `new UsecodeFlex(ids)`. -/
def newUsecodeFlex (ids : Option IDataSource) : Proc UsecodeFlex := do
  emit (Event.construct Kind.UsecodeFlex ids)
  pure { ids := ids }

/-- The expressions `new MainShapeArchive(ids, flexId, pal)`,
`new FontShapeArchive(ids, flexId, pal)`, `new GumpShapeArchive(ids, flexId, pal)`. -/
def newShapeArchive (cls : Kind) (ids : Option IDataSource) (flexId : Nat) :
    Proc ShapeArchive := do
  emit (Event.construct cls ids)
  pure { cls := cls, ids := ids, flexId := flexId, loaded := [] }

/-- The expression `new Shape(src, 0)`. -/
def newShape (src : Option IDataSource) : Proc Shape := do
  emit (Event.construct Kind.Shape src)
  pure { src := src, flexId := 0, shapeNum := 0 }

/-- The expression `new MusicFlex(ids)`. -/
def newMusicFlex (ids : Option IDataSource) : Proc MusicFlex := do
  emit (Event.construct Kind.MusicFlex ids)
  pure { ids := ids }

/-- The expression `new SoundFlex(ids)`. -/
def newSoundFlex (ids : Option IDataSource) : Proc SoundFlex := do
  emit (Event.construct Kind.SoundFlex ids)
  pure { ids := ids }

/-- The expression `new SpeechFlex(ids)`. -/
def newSpeechFlex (ids : Option IDataSource) : Proc SpeechFlex := do
  emit (Event.construct Kind.SpeechFlex ids)
  pure { ids := ids }

/-- The calls `archive->loadTypeFlags(ds)`, `archive->loadAnimDat(ds)`,
`archive->loadGumpage(ds)`: the archive reads the data of `ds`. -/
def ShapeArchive.load (a : ShapeArchive) (ds : Option IDataSource) : ShapeArchive :=
  { a with loaded := a.loaded ++ [ds.map IDataSource.bytes] }

/-- The call `config->readConfigFile(path, root, true)`. -/
def readConfigFile (path root : String) : Proc Unit := emit (Event.readConfigFile path root)

/-! ## The load sequence -/

/-- The member `GameData::loadTranslation()`. -/
def loadTranslation : Proc Unit := do
  let gd ← getGD
  let translationfile : String :=
    if gd._gameInfo._type = GameType.GAME_U8 then
      match gd._gameInfo._language with
      | GameLanguage.GAMELANG_ENGLISH => ""
      | GameLanguage.GAMELANG_FRENCH => "u8french.ini"
      | GameLanguage.GAMELANG_GERMAN => "u8german.ini"
      | GameLanguage.GAMELANG_SPANISH => "u8spanish.ini"
      | GameLanguage.GAMELANG_JAPANESE => "u8japanese.ini"
      | GameLanguage.GAMELANG_OTHER => ""
    else ""
  (if translationfile ≠ "" then
    readConfigFile ("@data/" ++ translationfile) "language"
  else
    pure ())

/-- The body of the glob loop, `for (i = 0; i < globflex->getCount(); ++i)`:
`remaining` iterations are still to run, the next one with index `i`. -/
def globLoop (ext : Externals) (globflex : RawArchive) : Nat → Nat → Proc Unit
  | 0, _ => pure ()
  | remaining + 1, i => do
    let globds ← get_datasource ext globflex i
    let glob : Option MapGlob :=
      match globds with
      | some ds => if ds.getSize ≠ 0 then some { readFrom := ds.bytes } else none
      | none => none
    release globds
    modifyGD (fun gd => { gd with _globs := gd._globs.set i glob })
    globLoop ext globflex remaining (i + 1)

/-- The member `GameData::loadU8Data()`. -/
def loadU8Data (ext : Externals) : Proc Unit := do
  let fd ← ReadFile ext "@game/static/fixed.dat"
  (if fd.isNone then error "Unable to load static/fixed.dat" else pure ())
  let fixed ← newRawArchive fd
  modifyGD (fun gd => { gd with _fixed := some fixed })

  let langletter := (← getGD)._gameInfo.getLanguageUsecodeLetter
  (if langletter.toNat = 0 then error "Unknown language. Unable to open usecode" else pure ())
  let filename := ("@game/usecode/".push langletter) ++ "usecode.flx"

  let uds ← ReadFile ext filename
  (if uds.isNone then error ("Unable to load " ++ filename) else pure ())
  let mainUsecode ← newUsecodeFlex uds
  modifyGD (fun gd => { gd with _mainUsecode := some mainUsecode })

  -- Load main shapes
  let sf0 ← ReadFile ext "@game/static/u8shapes.flx"
  let sf ← (if sf0.isNone then ReadFile ext "@game/static/u8shapes.cmp" else pure sf0)
  (if sf.isNone then error "Unable to load static/u8shapes.flx or static/u8shapes.cmp" else pure ())
  let mainShapes ← newShapeArchive Kind.MainShapeArchive sf ext.flex.MAINSHAPES
  modifyGD (fun gd => { gd with _mainShapes := some mainShapes })

  -- Load weapon, armour info
  readConfigFile "@data/u8weapons.ini" "weapons"
  readConfigFile "@data/u8armour.ini" "armour"
  readConfigFile "@data/u8monsters.ini" "monsters"
  readConfigFile "@data/u8.ini" "game"

  -- Load typeflags
  let tfs ← ReadFile ext "@game/static/typeflag.dat"
  (if tfs.isNone then error "Unable to load static/typeflag.dat" else pure ())
  modifyGD (fun gd => { gd with _mainShapes := gd._mainShapes.map (fun a => a.load tfs) })
  release tfs

  -- Load animdat
  let af ← ReadFile ext "@game/static/anim.dat"
  (if af.isNone then error "Unable to load static/anim.dat" else pure ())
  modifyGD (fun gd => { gd with _mainShapes := gd._mainShapes.map (fun a => a.load af) })
  release af

  -- Load weapon overlay data
  let wod ← ReadFile ext "@game/static/wpnovlay.dat"
  (if wod.isNone then error "Unable to load static/wpnovlay.dat" else pure ())
  let overlayflex ← newRawArchive wod
  modifyGD (fun gd => { gd with _weaponOverlay := some { loadedFrom := overlayflex } })
  deleteRawArchive overlayflex

  -- Load _globs
  let gds ← ReadFile ext "@game/static/glob.flx"
  (if gds.isNone then error "Unable to load static/glob.flx" else pure ())
  let globflex ← newRawArchive gds
  modifyGD (fun gd => { gd with _globs := [] })
  modifyGD (fun gd => { gd with _globs := List.replicate (ext.getCount globflex) none })
  globLoop ext globflex (ext.getCount globflex) 0
  deleteRawArchive globflex

  -- Load fonts
  let fds ← ReadFile ext "@game/static/u8fonts.flx"
  (if fds.isNone then error "Unable to load static/u8fonts.flx" else pure ())
  let fonts ← newShapeArchive Kind.FontShapeArchive fds ext.flex.OTHER
  modifyGD (fun gd => { gd with _fonts := some fonts })

  -- Load mouse
  let msds ← ReadFile ext "@game/static/u8mouse.shp"
  (if msds.isNone then error "Unable to load static/u8mouse.shp" else pure ())
  let mouse ← newShape msds
  modifyGD (fun gd => { gd with _mouse := some mouse })
  release msds

  let gumpds ← ReadFile ext "@game/static/u8gumps.flx"
  (if gumpds.isNone then error "Unable to load static/u8gumps.flx" else pure ())
  let gumps ← newShapeArchive Kind.GumpShapeArchive gumpds ext.flex.GUMPS
  modifyGD (fun gd => { gd with _gumps := some gumps })

  let gumpageds ← ReadFile ext "@game/static/gumpage.dat"
  (if gumpageds.isNone then error "Unable to load static/gumpage.dat" else pure ())
  modifyGD (fun gd => { gd with _gumps := gd._gumps.map (fun a => a.load gumpageds) })
  release gumpageds

  let mf ← ReadFile ext "@game/sound/music.flx"
  (if mf.isNone then error "Unable to load sound/music.flx" else pure ())
  let music ← newMusicFlex mf
  modifyGD (fun gd => { gd with _music := some music })

  let sndflx ← ReadFile ext "@game/sound/sound.flx"
  (if sndflx.isNone then error "Unable to load sound/sound.flx" else pure ())
  let soundFlex ← newSoundFlex sndflx
  modifyGD (fun gd => { gd with _soundFlex := some soundFlex })

  loadTranslation

/-- The conversion `%i` of `snprintf` applied to a `uint32`: the 32 bits are
printed as a signed integer. -/
def formatInt (n : Nat) : String :=
  if n % 2 ^ 32 < 2 ^ 31 then toString (n % 2 ^ 32) else "-" ++ toString (2 ^ 32 - n % 2 ^ 32)

/-- The member `GameData::getSpeechFlex(shapeNum)`. -/
def getSpeechFlex (ext : Externals) (shapeNum : Nat) : Proc (Option SpeechFlex) := do
  let gd ← getGD
  if shapeNum ≥ gd._speech.length then
    pure none
  else
    match gd._speech.getD shapeNum none with
    | some s => pure s
    | none =>
      let num_flx := formatInt shapeNum ++ ".flx"
      let langletter := gd._gameInfo.getLanguageFileLetter
      if langletter.toNat = 0 then
        -- FIXME: This leaks s
        pure none
      else
        let sflx ← ReadFile ext (("@game/sound/".push langletter) ++ num_flx)
        let s ← (if sflx.isSome then (do let flex ← newSpeechFlex sflx; pure (some flex))
          else pure none)
        modifyGD (fun gd => { gd with _speech := gd._speech.set shapeNum (some s) })
        pure s

/-- The member `GameData::loadRemorseData()`. -/
def loadRemorseData (ext : Externals) : Proc Unit := do
  let fd ← ReadFile ext "@game/static/_fixed.dat"
  (if fd.isNone then error "Unable to load static/_fixed.dat" else pure ())
  let fixed ← newRawArchive fd
  modifyGD (fun gd => { gd with _fixed := some fixed })

  let langletter := (← getGD)._gameInfo.getLanguageUsecodeLetter
  (if langletter.toNat = 0 then error "Unknown language. Unable to open usecode" else pure ())
  let filename := ("@game/usecode/".push langletter) ++ "usecode.flx"

  let uds ← ReadFile ext filename
  (if uds.isNone then error ("Unable to load " ++ filename) else pure ())
  let mainUsecode ← newUsecodeFlex uds
  modifyGD (fun gd => { gd with _mainUsecode := some mainUsecode })

  -- Load main shapes
  let sf ← ReadFile ext "@game/static/shapes.flx"
  (if sf.isNone then error "Unable to load static/shapes.flx" else pure ())
  let mainShapes ← newShapeArchive Kind.MainShapeArchive sf ext.flex.MAINSHAPES
  modifyGD (fun gd => { gd with _mainShapes := some mainShapes })

  readConfigFile "@data/remorse.ini" "game"

  -- Load typeflags
  let tfs ← ReadFile ext "@game/static/typeflag.dat"
  (if tfs.isNone then error "Unable to load static/typeflag.dat" else pure ())
  modifyGD (fun gd => { gd with _mainShapes := gd._mainShapes.map (fun a => a.load tfs) })
  release tfs

  -- Load animdat
  let af ← ReadFile ext "@game/static/anim.dat"
  (if af.isNone then error "Unable to load static/anim.dat" else pure ())
  modifyGD (fun gd => { gd with _mainShapes := gd._mainShapes.map (fun a => a.load af) })
  release af

  -- Load weapon overlay data
  let wod ← ReadFile ext "@game/static/wpnovlay.dat"
  (if wod.isNone then error "Unable to load static/wpnovlay.dat" else pure ())
  let overlayflex ← newRawArchive wod
  modifyGD (fun gd => { gd with _weaponOverlay := some { loadedFrom := overlayflex } })
  deleteRawArchive overlayflex

  -- Load globs
  let gds ← ReadFile ext "@game/static/glob.flx"
  (if gds.isNone then error "Unable to load static/glob.flx" else pure ())
  let globflex ← newRawArchive gds
  modifyGD (fun gd => { gd with _globs := [] })
  modifyGD (fun gd => { gd with _globs := List.replicate (ext.getCount globflex) none })
  globLoop ext globflex (ext.getCount globflex) 0
  deleteRawArchive globflex

  -- Load fonts
  let fds ← ReadFile ext "@game/static/_fonts.flx"
  (if fds.isNone then error "Unable to load static/_fonts.flx" else pure ())
  let fonts ← newShapeArchive Kind.FontShapeArchive fds ext.flex.OTHER
  modifyGD (fun gd => { gd with _fonts := some fonts })

  -- Load mouse
  let msds ← ReadFile ext "@game/static/_mouse.shp"
  (if msds.isNone then error "Unable to load static/_mouse.shp" else pure ())
  let mouse ← newShape msds
  modifyGD (fun gd => { gd with _mouse := some mouse })
  release msds

  let gumpds ← ReadFile ext "@game/static/_gumps.flx"
  (if gumpds.isNone then error "Unable to load static/_gumps.flx" else pure ())
  let gumps ← newShapeArchive Kind.GumpShapeArchive gumpds ext.flex.GUMPS
  modifyGD (fun gd => { gd with _gumps := some gumps })

  let dummyds ← ReadFile ext "@data/empty.flx"
  modifyGD (fun gd => { gd with _music := none })
  release dummyds

  let dummyds ← ReadFile ext "@data/empty.flx"
  let soundFlex ← newSoundFlex dummyds
  modifyGD (fun gd => { gd with _soundFlex := some soundFlex })
  release dummyds

  loadTranslation

/-! ## The mutable and const queries as one family -/

/-- The query operations of `GameData`. -/
inductive Query where
  | getGlob (glob : Nat)
  | getShapeFlex (flexId : Nat)
  | getShape (f : FrameID)
  | getFrame (f : FrameID)
  | getSpeechFlex (shapeNum : Nat)
deriving DecidableEq, Repr

/-- What a query returns. -/
inductive Answer where
  | glob (r : Option MapGlob)
  | shapeFlex (r : Option ShapeArchive)
  | shape (r : Option Shape)
  | frame (r : Option ShapeFrame)
  | speechFlex (r : Option SpeechFlex)
deriving DecidableEq, Repr

/-- Run a query on the world: the four `const` members read the `GameData`,
`getSpeechFlex` is the non-const member above. -/
def Query.exec (ext : Externals) : Query → Proc Answer
  | Query.getGlob glob => do
    let gd ← getGD
    pure (Answer.glob (gd.getGlob glob))
  | Query.getShapeFlex flexId => do
    let gd ← getGD
    pure (Answer.shapeFlex (gd.getShapeFlex ext flexId))
  | Query.getShape f => do
    let gd ← getGD
    pure (Answer.shape (gd.getShape ext f))
  | Query.getFrame f => do
    let gd ← getGD
    pure (Answer.frame (gd.getFrame ext f))
  | Query.getSpeechFlex shapeNum => do
    let r ← Ultima8.getSpeechFlex ext shapeNum
    pure (Answer.speechFlex r)

/-! ## Observations of worlds and traces -/

/-- The value the glob loop stores in slot `i`, as the loop body computes it from
`get_datasource(i)`. -/
def globOf (ext : Externals) (globflex : RawArchive) (i : Nat) : Option MapGlob :=
  match ext.get_datasource globflex i with
  | some b => if b.length ≠ 0 then some { readFrom := b } else none
  | none => none

/-- The glob table after the iterations `i`, ..., `i + remaining - 1` of the glob
loop, started on the table `t`. -/
def globTable (ext : Externals) (globflex : RawArchive) :
    Nat → Nat → List (Option MapGlob) → List (Option MapGlob)
  | 0, _, t => t
  | remaining + 1, i, t =>
    globTable ext globflex remaining (i + 1) (t.set i (globOf ext globflex i))

/-- The number of streams that `get_datasource` hands out in the iterations `i`,
..., `i + remaining - 1` of the glob loop. -/
def globPresent (ext : Externals) (globflex : RawArchive) : Nat → Nat → Nat
  | 0, _ => 0
  | remaining + 1, i =>
    (if (ext.get_datasource globflex i).isSome then 1 else 0) +
      globPresent ext globflex remaining (i + 1)

/-- The events of the iterations `i`, ..., `i + remaining - 1` of the glob loop,
when the next free stream handle is `h`. -/
def globEvents (ext : Externals) (globflex : RawArchive) : Nat → Nat → Nat → List Event
  | 0, _, _ => []
  | remaining + 1, i, h =>
    Event.getDatasource i
        ((ext.get_datasource globflex i).map (fun b => { handle := h, bytes := b })) ::
      Event.release
        ((ext.get_datasource globflex i).map (fun b => { handle := h, bytes := b })) ::
      globEvents ext globflex remaining (i + 1)
        (h + (if (ext.get_datasource globflex i).isSome then 1 else 0))

/-- The events of `loadTranslation` for a game: what it does on an empty world. -/
def translationEvents (gameInfo : GameInfo) : List Event :=
  (loadTranslation (World.start (GameData.new gameInfo) 0)).world.trace

/-- The pointers returned by the `get_datasource` calls of a trace, in order. -/
def acquired : List Event → List (Option IDataSource)
  | [] => []
  | Event.getDatasource _ r :: rest => r :: acquired rest
  | _ :: rest => acquired rest

/-- The indices of the `get_datasource` calls of a trace, in order. -/
def acquiredIndices : List Event → List Nat
  | [] => []
  | Event.getDatasource i _ :: rest => i :: acquiredIndices rest
  | _ :: rest => acquiredIndices rest

/-- The stream pointers deleted in a trace, in order. -/
def released : List Event → List (Option IDataSource)
  | [] => []
  | Event.release r :: rest => r :: released rest
  | _ :: rest => released rest

/-- The constructor calls of a trace, in order: class and stream argument. -/
def constructed : List Event → List (Kind × Option IDataSource)
  | [] => []
  | Event.construct k r :: rest => (k, r) :: constructed rest
  | _ :: rest => constructed rest

/-- The classes that take ownership of the stream they are constructed from: the
archives. A `Shape` only reads its stream. -/
def Kind.ownsStream : Kind → Bool
  | Kind.Shape => false
  | _ => true

/-- Some stream is deleted by the procedure after it was passed to the
constructor of a class that owns its stream. -/
def releasedAfterConstruct : List Event → Bool
  | [] => false
  | Event.construct k (some ds) :: rest =>
    (k.ownsStream && decide (some ds ∈ released rest)) || releasedAfterConstruct rest
  | _ :: rest => releasedAfterConstruct rest

/-! ## The required sources, following the specification -/

/-- The name of the usecode file of a language. -/
def usecodeFile (letter : Char) : String :=
  ("@game/usecode/".push letter) ++ "usecode.flx"

/-- A required source: the paths tried in turn and the message of the fatal error
raised when none of them opens. -/
structure Required where
  paths : List String
  message : String
deriving DecidableEq, Repr

/-- A required source is missing when none of its paths opens. -/
def Required.missing (ext : Externals) (r : Required) : Bool :=
  r.paths.all (fun p => (ext.ReadFile p).isNone)

/-- The required sources of the Ultima 8 load, in the order of the
specification. -/
def u8Required (letter : Char) : List Required :=
  [ { paths := ["@game/static/fixed.dat"], message := "Unable to load static/fixed.dat" },
    { paths := [usecodeFile letter], message := "Unable to load " ++ usecodeFile letter },
    { paths := ["@game/static/u8shapes.flx", "@game/static/u8shapes.cmp"],
      message := "Unable to load static/u8shapes.flx or static/u8shapes.cmp" },
    { paths := ["@game/static/typeflag.dat"], message := "Unable to load static/typeflag.dat" },
    { paths := ["@game/static/anim.dat"], message := "Unable to load static/anim.dat" },
    { paths := ["@game/static/wpnovlay.dat"], message := "Unable to load static/wpnovlay.dat" },
    { paths := ["@game/static/glob.flx"], message := "Unable to load static/glob.flx" },
    { paths := ["@game/static/u8fonts.flx"], message := "Unable to load static/u8fonts.flx" },
    { paths := ["@game/static/u8mouse.shp"], message := "Unable to load static/u8mouse.shp" },
    { paths := ["@game/static/u8gumps.flx"], message := "Unable to load static/u8gumps.flx" },
    { paths := ["@game/static/gumpage.dat"], message := "Unable to load static/gumpage.dat" },
    { paths := ["@game/sound/music.flx"], message := "Unable to load sound/music.flx" },
    { paths := ["@game/sound/sound.flx"], message := "Unable to load sound/sound.flx" } ]

/-- The fatal error the specification expects of the Ultima 8 load: the one of
the first missing source in order; the usecode source cannot be opened either
when the usecode letter of the language is unknown. -/
def u8ExpectedFatal (ext : Externals) (letter : Char) : Option String :=
  if (ext.ReadFile "@game/static/fixed.dat").isNone then
    some "Unable to load static/fixed.dat"
  else if letter.toNat = 0 then
    some "Unknown language. Unable to open usecode"
  else
    ((u8Required letter).find? (fun r => r.missing ext)).map Required.message

/-! ## Translation of frames -/

/-- The `ConfigFileManager` singleton behind `ConfigFileManager::get_instance()`.
Its code lives outside the translated source: the two members `translate` calls
are parameters. Keys are `istring`s; how the manager compares them is its own
business. -/
structure ConfigFileManager where
  /-- The member `exists(key)`. -/
  exists_ : String → Bool
  /-- The member `get(key, ret)`: the string stored into `ret`, or absent when `ret`
  is left as it was. -/
  get : String → Option String

/-- What a call `sscanf(str, "%u,%u", &a, &b)` leaves behind: the count it returns
(`EOF` is `-1`) and the contents of the two targets. -/
structure Scanned where
  n : Int
  first : Nat
  second : Nat
deriving DecidableEq, Repr

/-- The member `GameData::translate(FrameID f)`. The C library function `sscanf`,
called with the format `"%u,%u"`, is the parameter `sscanf`; `sprintf` with `"%d,%d"`
prints both numbers as `formatInt` does. The message written to `perr` for an
invalid value is not modelled. -/
def translate (ext : Externals) (config : ConfigFileManager) (sscanf : String → Scanned)
    (f : FrameID) : FrameID :=
  let key := "language/"
  if f._flexId = ext.flex.GUMPS then
    let key := key ++ "_gumps/"
    let buf := formatInt f._shapeNum ++ "," ++ formatInt f._frameNum
    let key := key ++ buf
    if !config.exists_ key then
      f
    else
      let trans := (config.get key).getD ""
      let r := sscanf trans
      let t : FrameID := { _flexId := f._flexId, _shapeNum := r.first, _frameNum := r.second }
      if r.n ≠ 2 then
        f
      else
        t
  else
    f

/-- The white-space characters of the C locale, `isspace`. -/
def isspace (c : Char) : Bool :=
  c.toNat = 32 || (9 ≤ c.toNat && c.toNat ≤ 13)

/-- The number a run of decimal digits denotes. -/
def digitsValue (ds : List Char) : Nat :=
  ds.foldl (fun acc c => 10 * acc + (c.toNat - 48)) 0

/-- One conversion `%u` as the C standard describes it: white space is skipped,
then an optional sign and a non-empty run of decimal digits are read; the result is
the number stored in the 32-bit target (negated modulo `2 ^ 32` after a minus
sign) and the rest of the input, or absent when no digit is found. For a run of
digits that exceeds 32 bits the standard leaves the stored value open; here the
low 32 bits are kept. -/
def scanUnsigned (s : List Char) : Option (Nat × List Char) :=
  let s := s.dropWhile isspace
  let neg : Bool := s.head? = some '-'
  let s := if s.head? = some '-' ∨ s.head? = some '+' then s.tail else s
  let ds := s.takeWhile Char.isDigit
  if ds.isEmpty then
    none
  else
    some ((if neg then (2 ^ 32 - digitsValue ds % 2 ^ 32) % 2 ^ 32 else digitsValue ds % 2 ^ 32),
      s.dropWhile Char.isDigit)

/-- The call `sscanf(str, "%u,%u", &a, &b)` as the C standard describes it, the
targets holding 0 before the call: a conversion, a comma, a conversion; the
count is the number of targets assigned, or `EOF` when the input ends before the
first conversion. What follows the second number is not read. -/
def sscanf_u_u (str : String) : Scanned :=
  match scanUnsigned str.toList with
  | none =>
    { n := if (str.toList.dropWhile isspace).isEmpty then -1 else 0, first := 0, second := 0 }
  | some (a, rest) =>
    match rest with
    | [] => { n := 1, first := a, second := 0 }
    | c :: rest2 =>
      if c = ',' then
        match scanUnsigned rest2 with
        | none => { n := 1, first := a, second := 0 }
        | some (b, _) => { n := 2, first := a, second := b }
      else
        { n := 1, first := a, second := 0 }

/-- The text of one number as the conversion `%u` accepts it: white space, an
optional sign, and a run of digits. -/
structure NumberText where
  space : List Char
  sign : List Char
  digits : List Char
deriving DecidableEq, Repr

/-- The characters of a number text. -/
def NumberText.text (t : NumberText) : List Char := t.space ++ (t.sign ++ t.digits)

/-- A number text is well formed when its white space is white space, its sign is
absent, `-` or `+`, and its digits are a non-empty run of decimal digits. -/
def NumberText.wellFormed (t : NumberText) : Bool :=
  t.space.all isspace && (t.sign = [] || t.sign = ['-'] || t.sign = ['+']) &&
    !t.digits.isEmpty && t.digits.all Char.isDigit

/-- The digits denote a number that fits the 32-bit target. -/
def NumberText.inRange (t : NumberText) : Bool := digitsValue t.digits < 2 ^ 32

/-- The number a text in range leaves in the 32-bit unsigned target: the number its
digits denote, negated modulo `2 ^ 32` after a minus sign. -/
def NumberText.value (t : NumberText) : Nat :=
  if t.sign = ['-'] then (2 ^ 32 - digitsValue t.digits) % 2 ^ 32 else digitsValue t.digits

/-- Whether a text starts with a decimal digit. -/
def startsWithDigit (l : List Char) : Bool :=
  match l with
  | [] => false
  | c :: _ => c.isDigit

/-! ## The translation as the specification words it -/

/-- The key as the specification words it: both numbers as decimal numerals. -/
def specKey (f : FrameID) : String :=
  "language/_gumps/" ++ toString f._shapeNum ++ "," ++ toString f._frameNum

/-- The value of an entry as the specification words it: exactly two unsigned
decimal numbers separated by a comma, and nothing else. -/
def specParse (v : String) : Option (Nat × Nat) :=
  let a := v.toList.takeWhile Char.isDigit
  match v.toList.dropWhile Char.isDigit with
  | [] => none
  | c :: b =>
    if c = ',' ∧ a ≠ [] ∧ b ≠ [] ∧ b.all Char.isDigit = true then
      some (digitsValue a, digitsValue b)
    else
      none

/-- The translation of a frame as the specification words it: the frame itself
unless its kind is `GUMPS` and the configuration holds an entry under `specKey`
whose value is two numbers by `specParse`. -/
def specTranslate (ext : Externals) (config : ConfigFileManager) (f : FrameID) : FrameID :=
  if f._flexId = ext.flex.GUMPS ∧ config.exists_ (specKey f) = true then
    match specParse ((config.get (specKey f)).getD "") with
    | some (a, b) => { _flexId := f._flexId, _shapeNum := a, _frameNum := b }
    | none => f
  else
    f

/-! ## Sample inputs -/

/-- A sample `GameInfo`: English Ultima 8. -/
def sampleInfo : GameInfo :=
  { _type := GameType.GAME_U8, _language := GameLanguage.GAMELANG_ENGLISH,
    getLanguageUsecodeLetter := Char.ofNat 101, getLanguageFileLetter := Char.ofNat 101 }

/-- Sample collaborators: every file exists and holds one byte; a raw archive
has three records, the first of three bytes, the second empty, the third
absent; a shape archive holds shapes 0 to 3, each with frames 0 and 1. -/
def sampleExt : Externals :=
  { ReadFile := fun _ => some [7],
    flex := { MAINSHAPES := 1, GUMPS := 2, OTHER := 0 },
    getCount := fun _ => 3,
    get_datasource := fun _ i => if i = 0 then some [1, 2, 3] else if i = 1 then some [] else none,
    archiveGetShape := fun a n =>
      if n < 4 then some { src := none, flexId := a.flexId, shapeNum := n } else none,
    shapeGetFrame := fun s n => if n < 2 then some { shape := s, frameNum := n } else none }

/-- A sample main-shapes archive. -/
def sampleMain : ShapeArchive :=
  { cls := Kind.MainShapeArchive, ids := some { handle := 2, bytes := [7] }, flexId := 1, loaded := [] }

/-- Another main-shapes archive, built from another stream. -/
def sampleMainB : ShapeArchive :=
  { cls := Kind.MainShapeArchive, ids := some { handle := 9, bytes := [8, 8] }, flexId := 1, loaded := [] }

/-- A sample gumps archive. -/
def sampleGumps : ShapeArchive :=
  { cls := Kind.GumpShapeArchive, ids := some { handle := 5, bytes := [7] }, flexId := 2, loaded := [] }

/-- A sample loaded state: main shapes and gumps are registered. -/
def sampleGD : GameData :=
  { GameData.new sampleInfo with _mainShapes := some sampleMain, _gumps := some sampleGumps }

/-- The sample state with another main-shapes archive and the same gumps. -/
def sampleGDB : GameData :=
  { GameData.new sampleInfo with _mainShapes := some sampleMainB, _gumps := some sampleGumps }

/-- Sample collaborators in which `@data/empty.flx` is the one file that does not
exist. -/
def sampleExtNoEmpty : Externals :=
  { sampleExt with ReadFile := fun p => if p = "@data/empty.flx" then none else some [7] }

/-- Sample collaborators with an empty file system. -/
def sampleExtNoFiles : Externals :=
  { sampleExt with ReadFile := fun _ => none }

/-- The world before a load: a freshly constructed English `GameData`, no stream
allocated yet, empty trace. -/
def sampleWorld : World := World.start (GameData.new sampleInfo) 0

/-- A sample configuration: gump 1, frame 2 is translated to gump 7, frame 8; the
entry for gump 3, frame 4 holds a value with one number only. -/
def sampleConfig : ConfigFileManager :=
  { exists_ := fun k => k = "language/_gumps/1,2" || k = "language/_gumps/3,4",
    get := fun k =>
      if k = "language/_gumps/1,2" then some "7,8"
      else if k = "language/_gumps/3,4" then some "7"
      else none }

/-- A sample configuration with three entries: under `1,2` a value with a third
number after the two, under `3,4` a value with white space and signs, and under
the decimal numerals `2147483648,0` a plain value. -/
def sampleConfigLoose : ConfigFileManager :=
  { exists_ := fun k => k = "language/_gumps/1,2" || k = "language/_gumps/3,4" ||
      k = "language/_gumps/2147483648,0",
    get := fun k =>
      if k = "language/_gumps/1,2" then some "7,8,9"
      else if k = "language/_gumps/3,4" then some " -1,+5"
      else if k = "language/_gumps/2147483648,0" then some "7,8"
      else none }

/-! ## Theorems -/

/-- C1: `getShapeFlex` returns `_mainShapes` for `MAINSHAPES`, `_gumps` for `GUMPS`
and absent for every other identifier, `OTHER` included; a kind whose member is
still null yields absent, and so does every identifier on a freshly constructed
`GameData`. The enumerators are pairwise distinct. -/
theorem getShapeFlex_lookup (ext : Externals) (gd : GameData) (gameInfo : GameInfo)
    (flexId : Nat)
    (hMG : ext.flex.MAINSHAPES ≠ ext.flex.GUMPS)
    (hOM : ext.flex.OTHER ≠ ext.flex.MAINSHAPES)
    (hOG : ext.flex.OTHER ≠ ext.flex.GUMPS) :
    gd.getShapeFlex ext ext.flex.MAINSHAPES = gd._mainShapes ∧
    gd.getShapeFlex ext ext.flex.GUMPS = gd._gumps ∧
    (flexId ≠ ext.flex.MAINSHAPES → flexId ≠ ext.flex.GUMPS →
      gd.getShapeFlex ext flexId = none) ∧
    gd.getShapeFlex ext ext.flex.OTHER = none ∧
    (gd._mainShapes = none → gd.getShapeFlex ext ext.flex.MAINSHAPES = none) ∧
    (gd._gumps = none → gd.getShapeFlex ext ext.flex.GUMPS = none) ∧
    (GameData.new gameInfo).getShapeFlex ext flexId = none := by
  have hGM : ext.flex.GUMPS ≠ ext.flex.MAINSHAPES := fun h => hMG h.symm
  refine ⟨?_, ?_, ?_, ?_, ?_, ?_, ?_⟩
  · simp [GameData.getShapeFlex]
  · simp [GameData.getShapeFlex, hGM]
  · intro h1 h2
    simp [GameData.getShapeFlex, h1, h2]
  · simp [GameData.getShapeFlex, hOM, hOG]
  · intro h
    simp [GameData.getShapeFlex, h]
  · intro h
    simp [GameData.getShapeFlex, hGM, h]
  · unfold GameData.getShapeFlex
    split
    · rfl
    · split <;> rfl

/-- Witness of C1 on the sample state, with identifier 7. -/
theorem getShapeFlex_lookup_witness :
    sampleExt.flex.MAINSHAPES ≠ sampleExt.flex.GUMPS ∧
    sampleExt.flex.OTHER ≠ sampleExt.flex.MAINSHAPES ∧
    sampleExt.flex.OTHER ≠ sampleExt.flex.GUMPS ∧
    (sampleGD.getShapeFlex sampleExt sampleExt.flex.MAINSHAPES = sampleGD._mainShapes ∧
    sampleGD.getShapeFlex sampleExt sampleExt.flex.GUMPS = sampleGD._gumps ∧
    (7 ≠ sampleExt.flex.MAINSHAPES → 7 ≠ sampleExt.flex.GUMPS →
      sampleGD.getShapeFlex sampleExt 7 = none) ∧
    sampleGD.getShapeFlex sampleExt sampleExt.flex.OTHER = none ∧
    (sampleGD._mainShapes = none →
      sampleGD.getShapeFlex sampleExt sampleExt.flex.MAINSHAPES = none) ∧
    (sampleGD._gumps = none → sampleGD.getShapeFlex sampleExt sampleExt.flex.GUMPS = none) ∧
    (GameData.new sampleInfo).getShapeFlex sampleExt 7 = none) :=
  ⟨by decide, by decide, by decide,
    getShapeFlex_lookup sampleExt sampleGD sampleInfo 7 (by decide) (by decide) (by decide)⟩

/-- C2: for a frame of kind `GUMPS`, two states with the same gumps archive give
the same `getShape` result, the gumps archive's `getShape(shapeNum)`, whatever
their main-shapes archives are; symmetrically for `MAINSHAPES`. -/
theorem getShape_reads_named_archive_only (ext : Externals) (f : FrameID)
    (gd1 gd2 : GameData) (hMG : ext.flex.MAINSHAPES ≠ ext.flex.GUMPS) :
    (f._flexId = ext.flex.GUMPS → gd1._gumps = gd2._gumps →
      gd1.getShape ext f = gd2.getShape ext f ∧
      gd1.getShape ext f =
        gd1._gumps.bind (fun archive => ext.archiveGetShape archive f._shapeNum)) ∧
    (f._flexId = ext.flex.MAINSHAPES → gd1._mainShapes = gd2._mainShapes →
      gd1.getShape ext f = gd2.getShape ext f ∧
      gd1.getShape ext f =
        gd1._mainShapes.bind (fun archive => ext.archiveGetShape archive f._shapeNum)) := by
  have hGM : ext.flex.GUMPS ≠ ext.flex.MAINSHAPES := fun h => hMG h.symm
  constructor
  · intro hf hsame
    have e1 : gd1.getShapeFlex ext f._flexId = gd1._gumps := by
      simp [GameData.getShapeFlex, hf, hGM]
    have e2 : gd2.getShapeFlex ext f._flexId = gd1._gumps := by
      simp [GameData.getShapeFlex, hf, hGM, hsame]
    constructor
    · simp only [GameData.getShape, e1, e2]
    · simp only [GameData.getShape, e1]
      cases gd1._gumps <;> rfl
  · intro hf hsame
    have e1 : gd1.getShapeFlex ext f._flexId = gd1._mainShapes := by
      simp [GameData.getShapeFlex, hf]
    have e2 : gd2.getShapeFlex ext f._flexId = gd1._mainShapes := by
      simp [GameData.getShapeFlex, hf, hsame]
    constructor
    · simp only [GameData.getShape, e1, e2]
    · simp only [GameData.getShape, e1]
      cases gd1._mainShapes <;> rfl

/-- Witness of C2: the two sample states share the gumps archive, differ in the
main-shapes archive, and both archives hold a shape at index 2. -/
theorem getShape_reads_named_archive_only_witness :
    sampleExt.flex.MAINSHAPES ≠ sampleExt.flex.GUMPS ∧
    sampleGD._mainShapes ≠ sampleGDB._mainShapes ∧
    (sampleExt.archiveGetShape sampleMain 2).isSome = true ∧
    (sampleExt.archiveGetShape sampleMainB 2).isSome = true ∧
    (sampleExt.archiveGetShape sampleGumps 2).isSome = true ∧
    sampleGD.getShape sampleExt { _flexId := 2, _shapeNum := 2, _frameNum := 0 } =
      sampleGDB.getShape sampleExt { _flexId := 2, _shapeNum := 2, _frameNum := 0 } ∧
    sampleGD.getShape sampleExt { _flexId := 2, _shapeNum := 2, _frameNum := 0 } =
      sampleExt.archiveGetShape sampleGumps 2 :=
  ⟨by decide, by decide, by decide, by decide, by decide,
    ((getShape_reads_named_archive_only sampleExt
      { _flexId := 2, _shapeNum := 2, _frameNum := 0 } sampleGD sampleGDB (by decide)).1
      rfl rfl).1,
    ((getShape_reads_named_archive_only sampleExt
      { _flexId := 2, _shapeNum := 2, _frameNum := 0 } sampleGD sampleGDB (by decide)).1
      rfl rfl).2⟩

/-- C3: `getFrame(f)` composes the kind lookup, the archive's `getShape(shapeNum)`
and the shape's `getFrame(frameNum)`; it is absent as soon as one of the first two
is absent, the frame number reaches the shape unchanged, and `getShape(f)` does not
depend on the frame number. -/
theorem getFrame_composition (ext : Externals) (gd : GameData) (f : FrameID) :
    gd.getFrame ext f =
      (gd.getShapeFlex ext f._flexId).bind (fun archive =>
        (ext.archiveGetShape archive f._shapeNum).bind (fun shape =>
          ext.shapeGetFrame shape f._frameNum)) ∧
    (gd.getShapeFlex ext f._flexId = none → gd.getFrame ext f = none) ∧
    (∀ archive, gd.getShapeFlex ext f._flexId = some archive →
      ext.archiveGetShape archive f._shapeNum = none → gd.getFrame ext f = none) ∧
    (∀ archive shape, gd.getShapeFlex ext f._flexId = some archive →
      ext.archiveGetShape archive f._shapeNum = some shape →
      gd.getFrame ext f = ext.shapeGetFrame shape f._frameNum) ∧
    (∀ n : Nat, gd.getShape ext { f with _frameNum := n } = gd.getShape ext f) := by
  refine ⟨?_, ?_, ?_, ?_, ?_⟩
  · unfold GameData.getFrame GameData.getShape
    cases h : gd.getShapeFlex ext f._flexId with
    | none => rfl
    | some archive =>
      cases h2 : ext.archiveGetShape archive f._shapeNum <;> simp [h2]
  · intro h
    simp [GameData.getFrame, GameData.getShape, h]
  · intro archive h h2
    simp [GameData.getFrame, GameData.getShape, h, h2]
  · intro archive shape h h2
    simp [GameData.getFrame, GameData.getShape, h, h2]
  · intro n
    rfl

/-- Witness of C3: frame 1 of gump 2 in the sample state. -/
theorem getFrame_composition_witness :
    sampleGD.getShapeFlex sampleExt 2 = some sampleGumps ∧
    sampleExt.archiveGetShape sampleGumps 2 =
      some { src := none, flexId := 2, shapeNum := 2 } ∧
    sampleGD.getFrame sampleExt { _flexId := 2, _shapeNum := 2, _frameNum := 1 } =
      sampleExt.shapeGetFrame { src := none, flexId := 2, shapeNum := 2 } 1 :=
  ⟨by decide, by decide,
    (getFrame_composition sampleExt sampleGD
      { _flexId := 2, _shapeNum := 2, _frameNum := 1 }).2.2.2.1 sampleGumps
      { src := none, flexId := 2, shapeNum := 2 } (by decide) (by decide)⟩

/-! ### Symbolic execution of procedures -/

/-- Running `pure a` returns `a` and leaves the world as it is. -/
theorem pure_step {α : Type} (a : α) (w : World) :
    (pure a : Proc α) w = Outcome.done a w := rfl

/-- One step of execution: `ReadFile` followed by the rest of the procedure. -/
theorem bind_ReadFile_step {β : Type} (ext : Externals) (path : String)
    (f : Option IDataSource → Proc β) (w : World) :
    (ReadFile ext path >>= f) w =
      f ((ext.ReadFile path).map (fun b => { handle := w.nextHandle, bytes := b }))
        { w with
          nextHandle := w.nextHandle + (if (ext.ReadFile path).isSome then 1 else 0),
          trace := w.trace ++
            [Event.openFile path
              ((ext.ReadFile path).map (fun b => { handle := w.nextHandle, bytes := b }))] } := by
  show Proc.bind (ReadFile ext path) f w = _
  simp only [Proc.bind, ReadFile]
  cases ext.ReadFile path <;> rfl

/-- The glob loop always returns; its effect on the world in closed form. -/
theorem globLoop_eq (ext : Externals) (a : RawArchive) (k i : Nat) (w : World) :
    globLoop ext a k i w =
      Outcome.done ()
        { gd := { w.gd with _globs := globTable ext a k i w.gd._globs },
          nextHandle := w.nextHandle + globPresent ext a k i,
          trace := w.trace ++ globEvents ext a k i w.nextHandle } := by
  induction k generalizing i w with
  | zero => simp [globLoop, globTable, globPresent, globEvents, pure_step]
  | succ k ih =>
    show Proc.bind (get_datasource ext a i) _ w = _
    simp only [Proc.bind, get_datasource, globTable, globPresent, globEvents, globOf]
    cases h : ext.get_datasource a i
    · show globLoop ext a k (i + 1) _ = _
      rw [ih]
      simp [release, emit, modifyGD]
    · show globLoop ext a k (i + 1) _ = _
      rw [ih]
      simp [release, emit, modifyGD, IDataSource.getSize, Nat.add_assoc]

/-- The procedure `loadTranslation` always returns and only appends its events. -/
theorem loadTranslation_eq (w : World) :
    loadTranslation w =
      Outcome.done () { w with trace := w.trace ++ translationEvents w.gd._gameInfo } := by
  have key : ∀ (c : Prop) [Decidable c] (e : Event) (w w0 : World), w0.trace = [] →
      (if c then emit e else (pure () : Proc Unit)) w =
        Outcome.done ()
          { w with trace := w.trace ++
              ((if c then emit e else (pure () : Proc Unit)) w0).world.trace } := by
    intro c _ e w w0 h0
    split <;> simp [emit, pure_step, Outcome.world, h0]
  have hg : ∀ (f : GameData → Proc Unit) (w : World), (getGD >>= f) w = f w.gd w :=
    fun _ _ => rfl
  unfold translationEvents
  simp only [loadTranslation, hg, readConfigFile]
  exact key _ _ _ _ rfl

/-- The steps of symbolic execution of a loader, one conjunct per primitive statement,
together with the normal forms of stream pointers, handles and traces they produce. -/
theorem exec_steps :
    (∀ (f : Unit → Proc Unit) (w : World), ((pure () : Proc Unit) >>= f) w = f () w) ∧
    (∀ (a : Option IDataSource) (f : Option IDataSource → Proc Unit) (w : World),
      ((pure a : Proc (Option IDataSource)) >>= f) w = f a w) ∧
    (∀ (msg : String) (f : Unit → Proc Unit) (w : World),
      ((error msg : Proc Unit) >>= f) w = Outcome.fatal msg w) ∧
    (∀ (c : Prop) [Decidable c] (m1 m2 : Proc Unit) (f : Unit → Proc Unit) (w : World),
      ((if c then m1 else m2) >>= f) w = if c then (m1 >>= f) w else (m2 >>= f) w) ∧
    (∀ (c : Prop) [Decidable c] (m1 m2 : Proc (Option IDataSource))
        (f : Option IDataSource → Proc Unit) (w : World),
      ((if c then m1 else m2) >>= f) w = if c then (m1 >>= f) w else (m2 >>= f) w) ∧
    (∀ (f : GameData → Proc Unit) (w : World), (getGD >>= f) w = f w.gd w) ∧
    (∀ (g : GameData → GameData) (f : Unit → Proc Unit) (w : World),
      (modifyGD g >>= f) w = f () { w with gd := g w.gd }) ∧
    (∀ (ids : Option IDataSource) (f : Unit → Proc Unit) (w : World),
      (release ids >>= f) w = f () { w with trace := w.trace ++ [Event.release ids] }) ∧
    (∀ (path root : String) (f : Unit → Proc Unit) (w : World),
      (readConfigFile path root >>= f) w =
        f () { w with trace := w.trace ++ [Event.readConfigFile path root] }) ∧
    (∀ (a : RawArchive) (f : Unit → Proc Unit) (w : World),
      (deleteRawArchive a >>= f) w =
        f () { w with trace := w.trace ++ [Event.destroy Kind.RawArchive a.ids] }) ∧
    (∀ (ids : Option IDataSource) (f : RawArchive → Proc Unit) (w : World),
      (newRawArchive ids >>= f) w =
        f { ids := ids }
          { w with trace := w.trace ++ [Event.construct Kind.RawArchive ids] }) ∧
    (∀ (ids : Option IDataSource) (f : UsecodeFlex → Proc Unit) (w : World),
      (newUsecodeFlex ids >>= f) w =
        f { ids := ids }
          { w with trace := w.trace ++ [Event.construct Kind.UsecodeFlex ids] }) ∧
    (∀ (cls : Kind) (ids : Option IDataSource) (flexId : Nat) (f : ShapeArchive → Proc Unit)
        (w : World),
      (newShapeArchive cls ids flexId >>= f) w =
        f { cls := cls, ids := ids, flexId := flexId, loaded := [] }
          { w with trace := w.trace ++ [Event.construct cls ids] }) ∧
    (∀ (src : Option IDataSource) (f : Shape → Proc Unit) (w : World),
      (newShape src >>= f) w =
        f { src := src, flexId := 0, shapeNum := 0 }
          { w with trace := w.trace ++ [Event.construct Kind.Shape src] }) ∧
    (∀ (ids : Option IDataSource) (f : MusicFlex → Proc Unit) (w : World),
      (newMusicFlex ids >>= f) w =
        f { ids := ids }
          { w with trace := w.trace ++ [Event.construct Kind.MusicFlex ids] }) ∧
    (∀ (ids : Option IDataSource) (f : SoundFlex → Proc Unit) (w : World),
      (newSoundFlex ids >>= f) w =
        f { ids := ids }
          { w with trace := w.trace ++ [Event.construct Kind.SoundFlex ids] }) ∧
    (∀ (ext : Externals) (a : RawArchive) (k i : Nat) (f : Unit → Proc Unit) (w : World),
      (globLoop ext a k i >>= f) w =
        f ()
          { gd := { w.gd with _globs := globTable ext a k i w.gd._globs },
            nextHandle := w.nextHandle + globPresent ext a k i,
            trace := w.trace ++ globEvents ext a k i w.nextHandle }) ∧
    (∀ (w : World),
      loadTranslation w =
        Outcome.done () { w with trace := w.trace ++ translationEvents w.gd._gameInfo }) ∧
    (∀ (g : Bytes → IDataSource) (b : Bytes), Option.map g (some b) = some (g b)) ∧
    (∀ (g : Bytes → IDataSource), Option.map g none = none) ∧
    (∀ (ds : IDataSource) (x y : Outcome Unit),
      (if (some ds).isNone = true then x else y) = y) ∧
    (∀ (x y : Outcome Unit),
      (if (none : Option IDataSource).isNone = true then x else y) = x) ∧
    (∀ (b : Bytes) (n : Nat), n + (if (some b).isSome = true then 1 else 0) = n + 1) ∧
    (∀ (n : Nat), n + (if (none : Option Bytes).isSome = true then 1 else 0) = n) ∧
    (∀ (x y : Outcome Unit), (if True then x else y) = x) ∧
    (∀ (x y : Outcome Unit), (if False then x else y) = y) ∧
    (∀ (xs ys zs : List Event), xs ++ ys ++ zs = xs ++ (ys ++ zs)) ∧
    (∀ (e : Event) (xs ys : List Event), e :: xs ++ ys = e :: (xs ++ ys)) ∧
    (∀ (xs : List Event), [] ++ xs = xs) ∧
    (∀ (n a b : Nat), n + a + b = n + (a + b)) := by
  refine ⟨?_, ?_, ?_, ?_, ?_, ?_, ?_, ?_, ?_, ?_, ?_, ?_, ?_, ?_, ?_, ?_, ?_, ?_, ?_, ?_, ?_,
    ?_, ?_, ?_, ?_, ?_, ?_, ?_, ?_, ?_⟩
  case refine_4 => intro c _ m1 m2 f w; split <;> rfl
  case refine_5 => intro c _ m1 m2 f w; split <;> rfl
  case refine_17 =>
    intro ext a k i f w
    show Proc.bind (globLoop ext a k i) f w = _
    simp only [Proc.bind, globLoop_eq]
  case refine_18 => exact loadTranslation_eq
  case refine_27 => exact List.append_assoc
  case refine_30 => exact Nat.add_assoc
  all_goals intros; rfl

/-- The constructor calls of a concatenated trace. -/
theorem constructed_append (xs ys : List Event) :
    constructed (xs ++ ys) = constructed xs ++ constructed ys := by
  induction xs with
  | nil => rfl
  | cons e xs ih => cases e <;> simp [constructed, ih]

/-- The glob loop calls no constructor with a stream. -/
theorem constructed_globEvents (ext : Externals) (a : RawArchive) (k i h : Nat) :
    constructed (globEvents ext a k i h) = [] := by
  induction k generalizing i h with
  | zero => rfl
  | succ k ih => simp [globEvents, constructed, ih]

/-- The procedure `loadTranslation` calls no constructor. -/
theorem constructed_translationEvents (gameInfo : GameInfo) :
    constructed (translationEvents gameInfo) = [] := by
  have key : ∀ (c : Prop) [Decidable c] (e : String) (w0 : World), w0.trace = [] →
      constructed ((if c then emit (Event.readConfigFile e "language")
        else (pure () : Proc Unit)) w0).world.trace = [] := by
    intro c _ e w0 h0
    split <;> simp [emit, pure_step, Outcome.world, h0, constructed]
  have hg : ∀ (f : GameData → Proc Unit) (w : World), (getGD >>= f) w = f w.gd w :=
    fun _ _ => rfl
  unfold translationEvents
  simp only [loadTranslation, hg, readConfigFile]
  exact key _ _ _ rfl

set_option maxHeartbeats 1000000 in
/-- Every run of `loadU8Data`, by cases on the files that open: its fatal message, the
streams its constructors received, and the glob table of a successful run. -/
theorem loadU8Data_run (ext : Externals) (w : World) :
    (loadU8Data ext w).fatalMsg =
      u8ExpectedFatal ext w.gd._gameInfo.getLanguageUsecodeLetter ∧
    (constructed (loadU8Data ext w).world.trace).all (fun p => p.2.isSome) =
      (constructed w.trace).all (fun p => p.2.isSome) ∧
    ((loadU8Data ext w).fatalMsg = none →
      ∃ b, ext.ReadFile "@game/static/glob.flx" = some b ∧
        Event.openFile "@game/static/glob.flx" (some { handle := w.nextHandle + 6, bytes := b })
          ∈ (loadU8Data ext w).world.trace ∧
        Event.construct Kind.RawArchive (some { handle := w.nextHandle + 6, bytes := b })
          ∈ (loadU8Data ext w).world.trace ∧
        (loadU8Data ext w).world.gd._globs =
          globTable ext { ids := some { handle := w.nextHandle + 6, bytes := b } }
            (ext.getCount { ids := some { handle := w.nextHandle + 6, bytes := b } }) 0
            (List.replicate
              (ext.getCount { ids := some { handle := w.nextHandle + 6, bytes := b } }) none)) := by
  simp only [loadU8Data, exec_steps, Nat.reduceAdd]
  rcases h1 : ext.ReadFile "@game/static/fixed.dat" with _ | b1 <;>
    simp only [exec_steps, Nat.reduceAdd, bind_ReadFile_step ext "@game/static/fixed.dat", h1]
  · simp [Outcome.fatalMsg, Outcome.world, u8ExpectedFatal, u8Required, Required.missing,
      usecodeFile, constructed_append, constructed, constructed_globEvents, *]
  by_cases hl : w.gd._gameInfo.getLanguageUsecodeLetter.toNat = 0 <;>
    simp only [exec_steps, Nat.reduceAdd, hl]
  · simp [Outcome.fatalMsg, Outcome.world, u8ExpectedFatal, u8Required, Required.missing,
      usecodeFile, constructed_append, constructed, constructed_globEvents, *]
  rcases h2 : ext.ReadFile (("@game/usecode/".push w.gd._gameInfo.getLanguageUsecodeLetter) ++ "usecode.flx") with _ | b2 <;>
    simp only [exec_steps, Nat.reduceAdd,
        bind_ReadFile_step ext (("@game/usecode/".push w.gd._gameInfo.getLanguageUsecodeLetter) ++ "usecode.flx"),
        h2]
  · simp [Outcome.fatalMsg, Outcome.world, u8ExpectedFatal, u8Required, Required.missing,
      usecodeFile, constructed_append, constructed, constructed_globEvents, *]
  rcases h3 : ext.ReadFile "@game/static/u8shapes.flx" with _ | b3
  all_goals
    simp only [exec_steps, Nat.reduceAdd, bind_ReadFile_step ext "@game/static/u8shapes.flx", h3]
  on_goal 1 => rcases h3c : ext.ReadFile "@game/static/u8shapes.cmp" with _ | b3c
  · simp only [exec_steps, Nat.reduceAdd, bind_ReadFile_step ext "@game/static/u8shapes.cmp", h3c]
    simp [Outcome.fatalMsg, Outcome.world, u8ExpectedFatal, u8Required, Required.missing,
      usecodeFile, constructed_append, constructed, constructed_globEvents, *]
  on_goal 1 => simp only [exec_steps, Nat.reduceAdd, bind_ReadFile_step ext "@game/static/u8shapes.cmp", h3c]
  all_goals
    rcases h4 : ext.ReadFile "@game/static/typeflag.dat" with _ | b4 <;>
      simp only [exec_steps, Nat.reduceAdd, bind_ReadFile_step ext "@game/static/typeflag.dat", h4]
    · simp [Outcome.fatalMsg, Outcome.world, u8ExpectedFatal, u8Required, Required.missing,
        usecodeFile, constructed_append, constructed, constructed_globEvents, *]
    rcases h5 : ext.ReadFile "@game/static/anim.dat" with _ | b5 <;>
      simp only [exec_steps, Nat.reduceAdd, bind_ReadFile_step ext "@game/static/anim.dat", h5]
    · simp [Outcome.fatalMsg, Outcome.world, u8ExpectedFatal, u8Required, Required.missing,
        usecodeFile, constructed_append, constructed, constructed_globEvents, *]
    rcases h6 : ext.ReadFile "@game/static/wpnovlay.dat" with _ | b6 <;>
      simp only [exec_steps, Nat.reduceAdd, bind_ReadFile_step ext "@game/static/wpnovlay.dat", h6]
    · simp [Outcome.fatalMsg, Outcome.world, u8ExpectedFatal, u8Required, Required.missing,
        usecodeFile, constructed_append, constructed, constructed_globEvents, *]
    rcases h7 : ext.ReadFile "@game/static/glob.flx" with _ | b7 <;>
      simp only [exec_steps, Nat.reduceAdd, bind_ReadFile_step ext "@game/static/glob.flx", h7]
    · simp [Outcome.fatalMsg, Outcome.world, u8ExpectedFatal, u8Required, Required.missing,
        usecodeFile, constructed_append, constructed, constructed_globEvents, *]
    rcases h8 : ext.ReadFile "@game/static/u8fonts.flx" with _ | b8 <;>
      simp only [exec_steps, Nat.reduceAdd, bind_ReadFile_step ext "@game/static/u8fonts.flx", h8]
    · simp [Outcome.fatalMsg, Outcome.world, u8ExpectedFatal, u8Required, Required.missing,
        usecodeFile, constructed_append, constructed, constructed_globEvents, *]
    rcases h9 : ext.ReadFile "@game/static/u8mouse.shp" with _ | b9 <;>
      simp only [exec_steps, Nat.reduceAdd, bind_ReadFile_step ext "@game/static/u8mouse.shp", h9]
    · simp [Outcome.fatalMsg, Outcome.world, u8ExpectedFatal, u8Required, Required.missing,
        usecodeFile, constructed_append, constructed, constructed_globEvents, *]
    rcases h10 : ext.ReadFile "@game/static/u8gumps.flx" with _ | b10 <;>
      simp only [exec_steps, Nat.reduceAdd, bind_ReadFile_step ext "@game/static/u8gumps.flx", h10]
    · simp [Outcome.fatalMsg, Outcome.world, u8ExpectedFatal, u8Required, Required.missing,
        usecodeFile, constructed_append, constructed, constructed_globEvents, *]
    rcases h11 : ext.ReadFile "@game/static/gumpage.dat" with _ | b11 <;>
      simp only [exec_steps, Nat.reduceAdd, bind_ReadFile_step ext "@game/static/gumpage.dat", h11]
    · simp [Outcome.fatalMsg, Outcome.world, u8ExpectedFatal, u8Required, Required.missing,
        usecodeFile, constructed_append, constructed, constructed_globEvents, *]
    rcases h12 : ext.ReadFile "@game/sound/music.flx" with _ | b12 <;>
      simp only [exec_steps, Nat.reduceAdd, bind_ReadFile_step ext "@game/sound/music.flx", h12]
    · simp [Outcome.fatalMsg, Outcome.world, u8ExpectedFatal, u8Required, Required.missing,
        usecodeFile, constructed_append, constructed, constructed_globEvents, *]
    rcases h13 : ext.ReadFile "@game/sound/sound.flx" with _ | b13 <;>
      simp only [exec_steps, Nat.reduceAdd, bind_ReadFile_step ext "@game/sound/sound.flx", h13]
    · simp [Outcome.fatalMsg, Outcome.world, u8ExpectedFatal, u8Required, Required.missing,
        usecodeFile, constructed_append, constructed, constructed_globEvents, *]
    simp [Outcome.fatalMsg, Outcome.world, u8ExpectedFatal, u8Required, Required.missing,
      usecodeFile, constructed_append, constructed, constructed_globEvents,
      constructed_translationEvents, *]

set_option maxHeartbeats 1000000 in
/-- Every successful run of `loadRemorseData`: the glob archive and the glob table. -/
theorem loadRemorseData_run (ext : Externals) (w : World) :
    (loadRemorseData ext w).fatalMsg = none →
      ∃ b, ext.ReadFile "@game/static/glob.flx" = some b ∧
        Event.openFile "@game/static/glob.flx" (some { handle := w.nextHandle + 6, bytes := b })
          ∈ (loadRemorseData ext w).world.trace ∧
        Event.construct Kind.RawArchive (some { handle := w.nextHandle + 6, bytes := b })
          ∈ (loadRemorseData ext w).world.trace ∧
        (loadRemorseData ext w).world.gd._globs =
          globTable ext { ids := some { handle := w.nextHandle + 6, bytes := b } }
            (ext.getCount { ids := some { handle := w.nextHandle + 6, bytes := b } }) 0
            (List.replicate
              (ext.getCount { ids := some { handle := w.nextHandle + 6, bytes := b } }) none) := by
  simp only [loadRemorseData, exec_steps, Nat.reduceAdd]
  rcases h1 : ext.ReadFile "@game/static/_fixed.dat" with _ | b1 <;>
    simp only [exec_steps, Nat.reduceAdd, bind_ReadFile_step ext "@game/static/_fixed.dat", h1]
  · simp [Outcome.fatalMsg]
  by_cases hl : w.gd._gameInfo.getLanguageUsecodeLetter.toNat = 0 <;>
    simp only [exec_steps, Nat.reduceAdd, hl]
  · simp [Outcome.fatalMsg]
  rcases h2 : ext.ReadFile (("@game/usecode/".push w.gd._gameInfo.getLanguageUsecodeLetter) ++ "usecode.flx") with _ | b2 <;>
    simp only [exec_steps, Nat.reduceAdd,
        bind_ReadFile_step ext (("@game/usecode/".push w.gd._gameInfo.getLanguageUsecodeLetter) ++ "usecode.flx"),
        h2]
  · simp [Outcome.fatalMsg]
  rcases h3 : ext.ReadFile "@game/static/shapes.flx" with _ | b3 <;>
    simp only [exec_steps, Nat.reduceAdd, bind_ReadFile_step ext "@game/static/shapes.flx", h3]
  · simp [Outcome.fatalMsg]
  rcases h4 : ext.ReadFile "@game/static/typeflag.dat" with _ | b4 <;>
    simp only [exec_steps, Nat.reduceAdd, bind_ReadFile_step ext "@game/static/typeflag.dat", h4]
  · simp [Outcome.fatalMsg]
  rcases h5 : ext.ReadFile "@game/static/anim.dat" with _ | b5 <;>
    simp only [exec_steps, Nat.reduceAdd, bind_ReadFile_step ext "@game/static/anim.dat", h5]
  · simp [Outcome.fatalMsg]
  rcases h6 : ext.ReadFile "@game/static/wpnovlay.dat" with _ | b6 <;>
    simp only [exec_steps, Nat.reduceAdd, bind_ReadFile_step ext "@game/static/wpnovlay.dat", h6]
  · simp [Outcome.fatalMsg]
  rcases h7 : ext.ReadFile "@game/static/glob.flx" with _ | b7 <;>
    simp only [exec_steps, Nat.reduceAdd, bind_ReadFile_step ext "@game/static/glob.flx", h7]
  · simp [Outcome.fatalMsg]
  rcases h8 : ext.ReadFile "@game/static/_fonts.flx" with _ | b8 <;>
    simp only [exec_steps, Nat.reduceAdd, bind_ReadFile_step ext "@game/static/_fonts.flx", h8]
  · simp [Outcome.fatalMsg]
  rcases h9 : ext.ReadFile "@game/static/_mouse.shp" with _ | b9 <;>
    simp only [exec_steps, Nat.reduceAdd, bind_ReadFile_step ext "@game/static/_mouse.shp", h9]
  · simp [Outcome.fatalMsg]
  rcases h10 : ext.ReadFile "@game/static/_gumps.flx" with _ | b10 <;>
    simp only [exec_steps, Nat.reduceAdd, bind_ReadFile_step ext "@game/static/_gumps.flx", h10]
  · simp [Outcome.fatalMsg]
  rcases h11 : ext.ReadFile "@data/empty.flx" with _ | b11 <;>
    simp only [exec_steps, Nat.reduceAdd, bind_ReadFile_step ext "@data/empty.flx", h11]
  all_goals
    simp [Outcome.fatalMsg, Outcome.world, *]

/-! ### The glob table -/

/-- The glob loop keeps the size of the table. -/
theorem globTable_length (ext : Externals) (a : RawArchive) (k i : Nat)
    (t : List (Option MapGlob)) : (globTable ext a k i t).length = t.length := by
  induction k generalizing i t with
  | zero => rfl
  | succ k ih => simp [globTable, ih]

/-- Slot `j` of the table after the loop. -/
theorem globTable_getElem? (ext : Externals) (a : RawArchive) (k i : Nat)
    (t : List (Option MapGlob)) (j : Nat) :
    (globTable ext a k i t)[j]? =
      if i ≤ j ∧ j < i + k ∧ j < t.length then some (globOf ext a j) else t[j]? := by
  induction k generalizing i t with
  | zero =>
    have e : ¬ (i ≤ j ∧ j < i + 0 ∧ j < t.length) := by omega
    simp only [globTable, e, if_false]
  | succ k ih =>
    simp only [globTable, ih, List.length_set, List.getElem?_set]
    by_cases hij : i = j
    · subst hij
      by_cases hlt : i < t.length
      · simp [hlt]
      · have e : t.length ≤ i := by omega
        simp [hlt, e]
    · simp only [hij, if_false]
      have e : (i + 1 ≤ j ∧ j < i + 1 + k ∧ j < t.length) ↔
          (i ≤ j ∧ j < i + (k + 1) ∧ j < t.length) := by omega
      simp only [e]

/-- The bounds check of `getGlob` as an optional lookup. -/
theorem getGlob_eq_getElem? (gd : GameData) (j : Nat) :
    gd.getGlob j = (gd._globs[j]?).getD none := by
  unfold GameData.getGlob
  split
  · rename_i h
    simp [List.getElem?_eq_getElem h]
  · rename_i h
    have e : gd._globs.length ≤ j := by omega
    simp [List.getElem?_eq_none e]

/-- The query `getGlob` on a table filled by the loop from `n` null slots. -/
theorem getGlob_globTable (ext : Externals) (a : RawArchive) (n : Nat) (gd : GameData)
    (h : gd._globs = globTable ext a n 0 (List.replicate n none)) (j : Nat) :
    gd.getGlob j = if j < n then globOf ext a j else none := by
  rw [getGlob_eq_getElem?, h, globTable_getElem?]
  by_cases hj : j < n
  · simp [hj]
  · simp [hj]

/-- The loop stores a null pointer exactly for an absent or empty record. -/
theorem globOf_eq_none_iff (ext : Externals) (a : RawArchive) (j : Nat) :
    globOf ext a j = none ↔
      ext.get_datasource a j = none ∨
      ∃ b, ext.get_datasource a j = some b ∧ b.length = 0 := by
  unfold globOf
  cases h : ext.get_datasource a j with
  | none => simp
  | some b =>
    by_cases hb : b.length = 0
    · simp [hb, List.length_eq_zero.mp hb]
    · have hne : b ≠ [] := fun e => hb (by simp [e])
      simp [hb, hne]

/-- The statement of C4 for any state whose table was filled by the glob loop. -/
theorem glob_table_of_globTable (ext : Externals) (a : RawArchive) (gd : GameData)
    (h : gd._globs =
      globTable ext a (ext.getCount a) 0 (List.replicate (ext.getCount a) none)) :
    gd._globs.length = ext.getCount a ∧
    ∀ i : Nat,
      (gd.getGlob i = none ↔
        ext.getCount a ≤ i ∨ ext.get_datasource a i = none ∨
        ∃ b, ext.get_datasource a i = some b ∧ b.length = 0) ∧
      (∀ b, i < ext.getCount a → ext.get_datasource a i = some b → b.length ≠ 0 →
        gd.getGlob i = some { readFrom := b }) := by
  constructor
  · rw [h, globTable_length, List.length_replicate]
  · intro i
    rw [getGlob_globTable ext a (ext.getCount a) gd h i]
    constructor
    · by_cases hi : i < ext.getCount a
      · have hn : ¬ ext.getCount a ≤ i := by omega
        simp only [hi, if_true, hn, false_or]
        exact globOf_eq_none_iff ext a i
      · have hn : ext.getCount a ≤ i := by omega
        simp [hi, hn]
    · intro b hi hb hlen
      simp [hi, globOf, hb, hlen]

/-- A procedure that returned did not end in a fatal error. -/
theorem fatalMsg_eq_none_of_done {w w' : World} {m : Proc Unit}
    (h : m w = Outcome.done () w') : (m w).fatalMsg = none ∧ (m w).world = w' := by
  rw [h]
  exact ⟨rfl, rfl⟩

/-- C4: after a successful `loadU8Data` or `loadRemorseData` the glob table has one
slot per record of the glob archive (the `RawArchive` built from the stream opened
for `static/glob.flx`), and `getGlob(i)` is absent exactly when `i` is out of range,
or `get_datasource(i)` is absent, or that stream has size 0; otherwise it is the
`MapGlob` read from record `i`. -/
theorem getGlob_after_load (ext : Externals) (w w' : World)
    (hload : loadU8Data ext w = Outcome.done () w' ∨
      loadRemorseData ext w = Outcome.done () w') :
    ∃ gds : IDataSource,
      Event.openFile "@game/static/glob.flx" (some gds) ∈ w'.trace ∧
      Event.construct Kind.RawArchive (some gds) ∈ w'.trace ∧
      w'.gd._globs.length = ext.getCount { ids := some gds } ∧
      ∀ i : Nat,
        (w'.gd.getGlob i = none ↔
          ext.getCount { ids := some gds } ≤ i ∨
          ext.get_datasource { ids := some gds } i = none ∨
          ∃ b, ext.get_datasource { ids := some gds } i = some b ∧ b.length = 0) ∧
        (∀ b, i < ext.getCount { ids := some gds } →
          ext.get_datasource { ids := some gds } i = some b → b.length ≠ 0 →
          w'.gd.getGlob i = some { readFrom := b }) := by
  rcases hload with h | h
  · obtain ⟨hf, hw⟩ := fatalMsg_eq_none_of_done h
    obtain ⟨b, -, h1, h2, h3⟩ := (loadU8Data_run ext w).2.2 hf
    rw [hw] at h1 h2 h3
    exact ⟨{ handle := w.nextHandle + 6, bytes := b }, h1, h2,
      glob_table_of_globTable ext _ w'.gd h3⟩
  · obtain ⟨hf, hw⟩ := fatalMsg_eq_none_of_done h
    obtain ⟨b, -, h1, h2, h3⟩ := loadRemorseData_run ext w hf
    rw [hw] at h1 h2 h3
    exact ⟨{ handle := w.nextHandle + 6, bytes := b }, h1, h2,
      glob_table_of_globTable ext _ w'.gd h3⟩

/-- Witness of C4: the Ultima 8 load on the sample file system succeeds, and its
glob table is described by the three records of the sample glob archive. -/
theorem getGlob_after_load_witness :
    ∃ gds : IDataSource,
      Event.openFile "@game/static/glob.flx" (some gds) ∈
        (loadU8Data sampleExt sampleWorld).world.trace ∧
      Event.construct Kind.RawArchive (some gds) ∈
        (loadU8Data sampleExt sampleWorld).world.trace ∧
      (loadU8Data sampleExt sampleWorld).world.gd._globs.length =
        sampleExt.getCount { ids := some gds } ∧
      ∀ i : Nat,
        ((loadU8Data sampleExt sampleWorld).world.gd.getGlob i = none ↔
          sampleExt.getCount { ids := some gds } ≤ i ∨
          sampleExt.get_datasource { ids := some gds } i = none ∨
          ∃ b, sampleExt.get_datasource { ids := some gds } i = some b ∧ b.length = 0) ∧
        (∀ b, i < sampleExt.getCount { ids := some gds } →
          sampleExt.get_datasource { ids := some gds } i = some b → b.length ≠ 0 →
          (loadU8Data sampleExt sampleWorld).world.gd.getGlob i = some { readFrom := b }) :=
  getGlob_after_load sampleExt sampleWorld (loadU8Data sampleExt sampleWorld).world
    (Or.inl (by decide!))

/-! ### Fatal errors of the Ultima 8 load -/

/-- The loop asks for the indices `i`, ..., `i + k - 1`, each once, in order. -/
theorem acquiredIndices_globEvents (ext : Externals) (a : RawArchive) (k i h : Nat) :
    acquiredIndices (globEvents ext a k i h) = List.range' i k := by
  induction k generalizing i h with
  | zero => rfl
  | succ k ih => simp [globEvents, acquiredIndices, ih, List.range'_succ]

/-- The loop receives what the archive hands out. -/
theorem acquired_globEvents_bytes (ext : Externals) (a : RawArchive) (k i h : Nat) :
    (acquired (globEvents ext a k i h)).map (Option.map IDataSource.bytes) =
      (List.range' i k).map (ext.get_datasource a) := by
  induction k generalizing i h with
  | zero => rfl
  | succ k ih =>
    cases hi : ext.get_datasource a i <;>
      simp [globEvents, acquired, ih, List.range'_succ, hi]

/-- The loop deletes exactly the pointers it received, in the same order. -/
theorem released_globEvents (ext : Externals) (a : RawArchive) (k i h : Nat) :
    released (globEvents ext a k i h) = acquired (globEvents ext a k i h) := by
  induction k generalizing i h with
  | zero => rfl
  | succ k ih => simp [globEvents, released, acquired, ih]

/-- The loop receives one pointer per iteration. -/
theorem acquired_globEvents_length (ext : Externals) (a : RawArchive) (k i h : Nat) :
    (acquired (globEvents ext a k i h)).length = k := by
  induction k generalizing i h with
  | zero => rfl
  | succ k ih => simp [globEvents, acquired, ih]

/-- The streams handed out in the loop carry consecutive fresh handles. -/
theorem acquired_globEvents_handles (ext : Externals) (a : RawArchive) (k i h : Nat) :
    (acquired (globEvents ext a k i h)).reduceOption.map IDataSource.handle =
      List.range' h (globPresent ext a k i) := by
  induction k generalizing i h with
  | zero => rfl
  | succ k ih =>
    cases hi : ext.get_datasource a i with
    | none =>
      simp [globEvents, globPresent, acquired, hi, List.reduceOption_cons_of_none, ih]
    | some b =>
      simp [globEvents, globPresent, acquired, hi, List.reduceOption_cons_of_some, ih,
        List.range'_succ, Nat.add_comm 1]

/-- A stream handed out in the loop was handed out once. -/
theorem acquired_globEvents_count (ext : Externals) (a : RawArchive) (k i h : Nat)
    (ds : IDataSource) (hmem : some ds ∈ acquired (globEvents ext a k i h)) :
    (acquired (globEvents ext a k i h)).count (some ds) = 1 := by
  have hnodup : ((acquired (globEvents ext a k i h)).reduceOption.map
      IDataSource.handle).Nodup := by
    rw [acquired_globEvents_handles]
    exact List.nodup_range' h (globPresent ext a k i)
  have hnd : (acquired (globEvents ext a k i h)).reduceOption.Nodup :=
    List.Nodup.of_map _ hnodup
  have hmem2 : ds ∈ (acquired (globEvents ext a k i h)).reduceOption :=
    List.reduceOption_mem_iff.mpr hmem
  have hc : (acquired (globEvents ext a k i h)).reduceOption.count ds = 1 :=
    List.count_eq_one_of_mem hnd hmem2
  have key : ∀ l : List (Option IDataSource), l.count (some ds) = l.reduceOption.count ds := by
    intro l
    induction l with
    | nil => rfl
    | cons x xs ihx =>
      cases x with
      | none => simp [List.reduceOption_cons_of_none, ihx]
      | some y =>
        by_cases hy : y = ds
        · simp [List.reduceOption_cons_of_some, ihx, hy]
        · have hy2 : ¬ (some y = some ds) := fun e => hy (Option.some.inj e)
          simp [List.reduceOption_cons_of_some, ihx, hy, List.count_cons, hy2]
  rw [key, hc]

/-- C8: the glob loop over `n` records returns, and in its events every index below
`n` is asked of `get_datasource` exactly once, in order; the pointers returned are
those of the archive, absent ones included; the stream pointers deleted are exactly
the pointers returned, in the same order: for every index `i` below `n` the `i`-th
pointer returned and the `i`-th pointer deleted are the same pointer, the one of
record `i`, whether it is absent, empty, or read into a `MapGlob`; a stream that was
handed out is deleted exactly once, nothing else is deleted, and there are `n`
deletions in all. -/
theorem globLoop_releases_each_substream_once (ext : Externals) (globflex : RawArchive)
    (n : Nat) (w : World) :
    ∃ (w' : World) (evs : List Event),
      globLoop ext globflex n 0 w = Outcome.done () w' ∧
      w'.trace = w.trace ++ evs ∧
      acquiredIndices evs = List.range n ∧
      (acquired evs).map (Option.map IDataSource.bytes) =
        (List.range n).map (ext.get_datasource globflex) ∧
      released evs = acquired evs ∧
      (released evs).length = n ∧
      (∀ i : Nat, i < n → ∃ r : Option IDataSource,
        (acquired evs)[i]? = some r ∧ (released evs)[i]? = some r ∧
        r.map IDataSource.bytes = ext.get_datasource globflex i) ∧
      (∀ ds : IDataSource, some ds ∈ acquired evs → (released evs).count (some ds) = 1) ∧
      (∀ ds : IDataSource, some ds ∉ acquired evs → (released evs).count (some ds) = 0) := by
  refine ⟨_, globEvents ext globflex n 0 w.nextHandle, globLoop_eq ext globflex n 0 w, rfl,
    ?_, ?_, released_globEvents _ _ _ _ _, ?_, ?_, ?_, ?_⟩
  · rw [acquiredIndices_globEvents, List.range_eq_range']
  · rw [acquired_globEvents_bytes, List.range_eq_range']
  · rw [released_globEvents, acquired_globEvents_length]
  · intro i hi
    have hlen := acquired_globEvents_length ext globflex n 0 w.nextHandle
    have hi2 : i < (acquired (globEvents ext globflex n 0 w.nextHandle)).length := by
      rw [hlen]; exact hi
    refine ⟨(acquired (globEvents ext globflex n 0 w.nextHandle))[i], ?_, ?_, ?_⟩
    · exact List.getElem?_eq_getElem hi2
    · rw [released_globEvents]
      exact List.getElem?_eq_getElem hi2
    · have hb := acquired_globEvents_bytes ext globflex n 0 w.nextHandle
      have h1 := congrArg (fun l => l[i]?) hb
      simp only [List.getElem?_map, List.getElem?_eq_getElem hi2, Option.map_some'] at h1
      rw [List.getElem?_range' _ _ (by omega : i < n)] at h1
      simpa using h1
  · intro ds hds
    rw [released_globEvents]
    exact acquired_globEvents_count _ _ _ _ _ ds hds
  · intro ds hds
    rw [released_globEvents]
    exact List.count_eq_zero_of_not_mem hds

/-! ### Ownership of streams across a whole load -/

/-- The deletions of a concatenated trace. -/
theorem released_append (xs ys : List Event) :
    released (xs ++ ys) = released xs ++ released ys := by
  induction xs with
  | nil => rfl
  | cons e xs ih => cases e <;> simp [released, ih]

/-- The procedure `loadTranslation` deletes no stream. -/
theorem released_translationEvents (gameInfo : GameInfo) :
    released (translationEvents gameInfo) = [] := by
  have key : ∀ (c : Prop) [Decidable c] (e : String) (w0 : World), w0.trace = [] →
      released ((if c then emit (Event.readConfigFile e "language")
        else (pure () : Proc Unit)) w0).world.trace = [] := by
    intro c _ e w0 h0
    split <;> simp [emit, pure_step, Outcome.world, h0, released]
  have hg : ∀ (f : GameData → Proc Unit) (w : World), (getGD >>= f) w = f w.gd w :=
    fun _ _ => rfl
  unfold translationEvents
  simp only [loadTranslation, hg, readConfigFile]
  exact key _ _ _ rfl

/-- A stretch of trace without constructor calls cannot start a violation of ownership. -/
theorem releasedAfterConstruct_of_constructed_nil (xs ys : List Event)
    (h : constructed xs = []) :
    releasedAfterConstruct (xs ++ ys) = releasedAfterConstruct ys := by
  induction xs with
  | nil => rfl
  | cons e xs ih =>
    cases e with
    | construct k r => simp [constructed] at h
    | openFile p r => simpa [releasedAfterConstruct, constructed] using ih (by simpa [constructed] using h)
    | getDatasource i r => simpa [releasedAfterConstruct, constructed] using ih (by simpa [constructed] using h)
    | release r => simpa [releasedAfterConstruct, constructed] using ih (by simpa [constructed] using h)
    | destroy k r => simpa [releasedAfterConstruct, constructed] using ih (by simpa [constructed] using h)
    | readConfigFile p r => simpa [releasedAfterConstruct, constructed] using ih (by simpa [constructed] using h)

/-- The glob loop deletes only streams it allocated itself. -/
theorem released_globEvents_handle (ext : Externals) (a : RawArchive) (k i h : Nat)
    (ds : IDataSource) (hmem : some ds ∈ released (globEvents ext a k i h)) :
    h ≤ ds.handle := by
  rw [released_globEvents] at hmem
  have h1 : ds ∈ (acquired (globEvents ext a k i h)).reduceOption :=
    List.reduceOption_mem_iff.mpr hmem
  have h2 : ds.handle ∈ (acquired (globEvents ext a k i h)).reduceOption.map
      IDataSource.handle := List.mem_map_of_mem _ h1
  rw [acquired_globEvents_handles] at h2
  exact (List.mem_range'_1.mp h2).1

/-- A stream allocated before the glob loop is not deleted in it. -/
theorem not_mem_released_globEvents (ext : Externals) (a : RawArchive) (k i h n : Nat)
    (b : Bytes) (hlt : n < h) :
    (some { handle := n, bytes := b } ∈ released (globEvents ext a k i h)) = False := by
  apply eq_false
  intro hmem
  have := released_globEvents_handle ext a k i h _ hmem
  simp at this
  omega

/-- The events of `loadTranslation` do not violate ownership. -/
theorem releasedAfterConstruct_translationEvents (gameInfo : GameInfo) :
    releasedAfterConstruct (translationEvents gameInfo) = false := by
  have h := releasedAfterConstruct_of_constructed_nil (translationEvents gameInfo) []
    (constructed_translationEvents gameInfo)
  rw [List.append_nil] at h
  rw [h]
  rfl

set_option maxHeartbeats 2000000 in
/-- The sibling path: no run of `loadU8Data`, successful or fatal, deletes a stream after
handing it to the constructor of an archive. -/
theorem loadU8Data_keeps_owned_streams (ext : Externals) (w : World) (h0 : w.trace = []) :
    releasedAfterConstruct (loadU8Data ext w).world.trace = false := by
  simp only [loadU8Data, exec_steps, Nat.reduceAdd]
  rcases h1 : ext.ReadFile "@game/static/fixed.dat" with _ | b1 <;>
    simp only [exec_steps, Nat.reduceAdd, bind_ReadFile_step ext "@game/static/fixed.dat", h1]
  · simp_arith [Outcome.world, h0, releasedAfterConstruct, released, released_append,
      Kind.ownsStream, releasedAfterConstruct_of_constructed_nil, constructed_globEvents,
      constructed_translationEvents, released_translationEvents, not_mem_released_globEvents,
      releasedAfterConstruct_translationEvents]
  by_cases hl : w.gd._gameInfo.getLanguageUsecodeLetter.toNat = 0 <;>
    simp only [exec_steps, Nat.reduceAdd, hl]
  · simp_arith [Outcome.world, h0, releasedAfterConstruct, released, released_append,
      Kind.ownsStream, releasedAfterConstruct_of_constructed_nil, constructed_globEvents,
      constructed_translationEvents, released_translationEvents, not_mem_released_globEvents,
      releasedAfterConstruct_translationEvents]
  rcases h2 : ext.ReadFile (("@game/usecode/".push w.gd._gameInfo.getLanguageUsecodeLetter) ++ "usecode.flx") with _ | b2 <;>
    simp only [exec_steps, Nat.reduceAdd,
        bind_ReadFile_step ext (("@game/usecode/".push w.gd._gameInfo.getLanguageUsecodeLetter) ++ "usecode.flx"),
        h2]
  · simp_arith [Outcome.world, h0, releasedAfterConstruct, released, released_append,
      Kind.ownsStream, releasedAfterConstruct_of_constructed_nil, constructed_globEvents,
      constructed_translationEvents, released_translationEvents, not_mem_released_globEvents,
      releasedAfterConstruct_translationEvents]
  rcases h3 : ext.ReadFile "@game/static/u8shapes.flx" with _ | b3
  all_goals
    simp only [exec_steps, Nat.reduceAdd, bind_ReadFile_step ext "@game/static/u8shapes.flx", h3]
  on_goal 1 => rcases h3c : ext.ReadFile "@game/static/u8shapes.cmp" with _ | b3c
  · simp only [exec_steps, Nat.reduceAdd, bind_ReadFile_step ext "@game/static/u8shapes.cmp", h3c]
    simp_arith [Outcome.world, h0, releasedAfterConstruct, released, released_append,
      Kind.ownsStream, releasedAfterConstruct_of_constructed_nil, constructed_globEvents,
      constructed_translationEvents, released_translationEvents, not_mem_released_globEvents,
      releasedAfterConstruct_translationEvents]
  on_goal 1 => simp only [exec_steps, Nat.reduceAdd, bind_ReadFile_step ext "@game/static/u8shapes.cmp", h3c]
  all_goals
    rcases h4 : ext.ReadFile "@game/static/typeflag.dat" with _ | b4 <;>
      simp only [exec_steps, Nat.reduceAdd, bind_ReadFile_step ext "@game/static/typeflag.dat", h4]
    · simp_arith [Outcome.world, h0, releasedAfterConstruct, released, released_append,
        Kind.ownsStream, releasedAfterConstruct_of_constructed_nil, constructed_globEvents,
        constructed_translationEvents, released_translationEvents, not_mem_released_globEvents,
        releasedAfterConstruct_translationEvents]
    rcases h5 : ext.ReadFile "@game/static/anim.dat" with _ | b5 <;>
      simp only [exec_steps, Nat.reduceAdd, bind_ReadFile_step ext "@game/static/anim.dat", h5]
    · simp_arith [Outcome.world, h0, releasedAfterConstruct, released, released_append,
        Kind.ownsStream, releasedAfterConstruct_of_constructed_nil, constructed_globEvents,
        constructed_translationEvents, released_translationEvents, not_mem_released_globEvents,
        releasedAfterConstruct_translationEvents]
    rcases h6 : ext.ReadFile "@game/static/wpnovlay.dat" with _ | b6 <;>
      simp only [exec_steps, Nat.reduceAdd, bind_ReadFile_step ext "@game/static/wpnovlay.dat", h6]
    · simp_arith [Outcome.world, h0, releasedAfterConstruct, released, released_append,
        Kind.ownsStream, releasedAfterConstruct_of_constructed_nil, constructed_globEvents,
        constructed_translationEvents, released_translationEvents, not_mem_released_globEvents,
        releasedAfterConstruct_translationEvents]
    rcases h7 : ext.ReadFile "@game/static/glob.flx" with _ | b7 <;>
      simp only [exec_steps, Nat.reduceAdd, bind_ReadFile_step ext "@game/static/glob.flx", h7]
    · simp_arith [Outcome.world, h0, releasedAfterConstruct, released, released_append,
        Kind.ownsStream, releasedAfterConstruct_of_constructed_nil, constructed_globEvents,
        constructed_translationEvents, released_translationEvents, not_mem_released_globEvents,
        releasedAfterConstruct_translationEvents]
    rcases h8 : ext.ReadFile "@game/static/u8fonts.flx" with _ | b8 <;>
      simp only [exec_steps, Nat.reduceAdd, bind_ReadFile_step ext "@game/static/u8fonts.flx", h8]
    · simp_arith [Outcome.world, h0, releasedAfterConstruct, released, released_append,
        Kind.ownsStream, releasedAfterConstruct_of_constructed_nil, constructed_globEvents,
        constructed_translationEvents, released_translationEvents, not_mem_released_globEvents,
        releasedAfterConstruct_translationEvents]
    rcases h9 : ext.ReadFile "@game/static/u8mouse.shp" with _ | b9 <;>
      simp only [exec_steps, Nat.reduceAdd, bind_ReadFile_step ext "@game/static/u8mouse.shp", h9]
    · simp_arith [Outcome.world, h0, releasedAfterConstruct, released, released_append,
        Kind.ownsStream, releasedAfterConstruct_of_constructed_nil, constructed_globEvents,
        constructed_translationEvents, released_translationEvents, not_mem_released_globEvents,
        releasedAfterConstruct_translationEvents]
    rcases h10 : ext.ReadFile "@game/static/u8gumps.flx" with _ | b10 <;>
      simp only [exec_steps, Nat.reduceAdd, bind_ReadFile_step ext "@game/static/u8gumps.flx", h10]
    · simp_arith [Outcome.world, h0, releasedAfterConstruct, released, released_append,
        Kind.ownsStream, releasedAfterConstruct_of_constructed_nil, constructed_globEvents,
        constructed_translationEvents, released_translationEvents, not_mem_released_globEvents,
        releasedAfterConstruct_translationEvents]
    rcases h11 : ext.ReadFile "@game/static/gumpage.dat" with _ | b11 <;>
      simp only [exec_steps, Nat.reduceAdd, bind_ReadFile_step ext "@game/static/gumpage.dat", h11]
    · simp_arith [Outcome.world, h0, releasedAfterConstruct, released, released_append,
        Kind.ownsStream, releasedAfterConstruct_of_constructed_nil, constructed_globEvents,
        constructed_translationEvents, released_translationEvents, not_mem_released_globEvents,
        releasedAfterConstruct_translationEvents]
    rcases h12 : ext.ReadFile "@game/sound/music.flx" with _ | b12 <;>
      simp only [exec_steps, Nat.reduceAdd, bind_ReadFile_step ext "@game/sound/music.flx", h12]
    · simp_arith [Outcome.world, h0, releasedAfterConstruct, released, released_append,
        Kind.ownsStream, releasedAfterConstruct_of_constructed_nil, constructed_globEvents,
        constructed_translationEvents, released_translationEvents, not_mem_released_globEvents,
        releasedAfterConstruct_translationEvents]
    rcases h13 : ext.ReadFile "@game/sound/sound.flx" with _ | b13 <;>
      simp only [exec_steps, Nat.reduceAdd, bind_ReadFile_step ext "@game/sound/sound.flx", h13]
    · simp_arith [Outcome.world, h0, releasedAfterConstruct, released, released_append,
        Kind.ownsStream, releasedAfterConstruct_of_constructed_nil, constructed_globEvents,
        constructed_translationEvents, released_translationEvents, not_mem_released_globEvents,
        releasedAfterConstruct_translationEvents]
    simp_arith [Outcome.world, h0, releasedAfterConstruct, released, released_append,
      Kind.ownsStream, releasedAfterConstruct_of_constructed_nil, constructed_globEvents,
      constructed_translationEvents, released_translationEvents, not_mem_released_globEvents,
      releasedAfterConstruct_translationEvents]

set_option maxHeartbeats 2000000 in
/-- Every run of `loadRemorseData`: all constructor calls other than that of `SoundFlex`
receive an opened stream; a successful run constructs `SoundFlex` from a null stream
when `@data/empty.flx` is absent, and deletes the stream it gave to `SoundFlex` when
the file is present. -/
theorem loadRemorseData_defects (ext : Externals) (w : World) (h0 : w.trace = []) :
    (constructed (loadRemorseData ext w).world.trace).all
      (fun p => p.2.isSome || p.1 == Kind.SoundFlex) = true ∧
    ((loadRemorseData ext w).fatalMsg = none →
      (ext.ReadFile "@data/empty.flx" = none →
        (Kind.SoundFlex, none) ∈ constructed (loadRemorseData ext w).world.trace) ∧
      (ext.ReadFile "@data/empty.flx" ≠ none →
        releasedAfterConstruct (loadRemorseData ext w).world.trace = true)) := by
  simp only [loadRemorseData, exec_steps, Nat.reduceAdd]
  rcases h1 : ext.ReadFile "@game/static/_fixed.dat" with _ | b1 <;>
    simp only [exec_steps, Nat.reduceAdd, bind_ReadFile_step ext "@game/static/_fixed.dat", h1]
  · simp_arith [Outcome.world, Outcome.fatalMsg, h0, releasedAfterConstruct, released,
      released_append, constructed, constructed_append, Kind.ownsStream,
      releasedAfterConstruct_of_constructed_nil, constructed_globEvents,
      constructed_translationEvents, released_translationEvents, not_mem_released_globEvents,
      releasedAfterConstruct_translationEvents]
  by_cases hl : w.gd._gameInfo.getLanguageUsecodeLetter.toNat = 0 <;>
    simp only [exec_steps, Nat.reduceAdd, hl]
  · simp_arith [Outcome.world, Outcome.fatalMsg, h0, releasedAfterConstruct, released,
      released_append, constructed, constructed_append, Kind.ownsStream,
      releasedAfterConstruct_of_constructed_nil, constructed_globEvents,
      constructed_translationEvents, released_translationEvents, not_mem_released_globEvents,
      releasedAfterConstruct_translationEvents]
  rcases h2 : ext.ReadFile (("@game/usecode/".push w.gd._gameInfo.getLanguageUsecodeLetter) ++ "usecode.flx") with _ | b2 <;>
    simp only [exec_steps, Nat.reduceAdd,
        bind_ReadFile_step ext (("@game/usecode/".push w.gd._gameInfo.getLanguageUsecodeLetter) ++ "usecode.flx"),
        h2]
  · simp_arith [Outcome.world, Outcome.fatalMsg, h0, releasedAfterConstruct, released,
      released_append, constructed, constructed_append, Kind.ownsStream,
      releasedAfterConstruct_of_constructed_nil, constructed_globEvents,
      constructed_translationEvents, released_translationEvents, not_mem_released_globEvents,
      releasedAfterConstruct_translationEvents]
  rcases h3 : ext.ReadFile "@game/static/shapes.flx" with _ | b3 <;>
    simp only [exec_steps, Nat.reduceAdd, bind_ReadFile_step ext "@game/static/shapes.flx", h3]
  · simp_arith [Outcome.world, Outcome.fatalMsg, h0, releasedAfterConstruct, released,
      released_append, constructed, constructed_append, Kind.ownsStream,
      releasedAfterConstruct_of_constructed_nil, constructed_globEvents,
      constructed_translationEvents, released_translationEvents, not_mem_released_globEvents,
      releasedAfterConstruct_translationEvents]
  rcases h4 : ext.ReadFile "@game/static/typeflag.dat" with _ | b4 <;>
    simp only [exec_steps, Nat.reduceAdd, bind_ReadFile_step ext "@game/static/typeflag.dat", h4]
  · simp_arith [Outcome.world, Outcome.fatalMsg, h0, releasedAfterConstruct, released,
      released_append, constructed, constructed_append, Kind.ownsStream,
      releasedAfterConstruct_of_constructed_nil, constructed_globEvents,
      constructed_translationEvents, released_translationEvents, not_mem_released_globEvents,
      releasedAfterConstruct_translationEvents]
  rcases h5 : ext.ReadFile "@game/static/anim.dat" with _ | b5 <;>
    simp only [exec_steps, Nat.reduceAdd, bind_ReadFile_step ext "@game/static/anim.dat", h5]
  · simp_arith [Outcome.world, Outcome.fatalMsg, h0, releasedAfterConstruct, released,
      released_append, constructed, constructed_append, Kind.ownsStream,
      releasedAfterConstruct_of_constructed_nil, constructed_globEvents,
      constructed_translationEvents, released_translationEvents, not_mem_released_globEvents,
      releasedAfterConstruct_translationEvents]
  rcases h6 : ext.ReadFile "@game/static/wpnovlay.dat" with _ | b6 <;>
    simp only [exec_steps, Nat.reduceAdd, bind_ReadFile_step ext "@game/static/wpnovlay.dat", h6]
  · simp_arith [Outcome.world, Outcome.fatalMsg, h0, releasedAfterConstruct, released,
      released_append, constructed, constructed_append, Kind.ownsStream,
      releasedAfterConstruct_of_constructed_nil, constructed_globEvents,
      constructed_translationEvents, released_translationEvents, not_mem_released_globEvents,
      releasedAfterConstruct_translationEvents]
  rcases h7 : ext.ReadFile "@game/static/glob.flx" with _ | b7 <;>
    simp only [exec_steps, Nat.reduceAdd, bind_ReadFile_step ext "@game/static/glob.flx", h7]
  · simp_arith [Outcome.world, Outcome.fatalMsg, h0, releasedAfterConstruct, released,
      released_append, constructed, constructed_append, Kind.ownsStream,
      releasedAfterConstruct_of_constructed_nil, constructed_globEvents,
      constructed_translationEvents, released_translationEvents, not_mem_released_globEvents,
      releasedAfterConstruct_translationEvents]
  rcases h8 : ext.ReadFile "@game/static/_fonts.flx" with _ | b8 <;>
    simp only [exec_steps, Nat.reduceAdd, bind_ReadFile_step ext "@game/static/_fonts.flx", h8]
  · simp_arith [Outcome.world, Outcome.fatalMsg, h0, releasedAfterConstruct, released,
      released_append, constructed, constructed_append, Kind.ownsStream,
      releasedAfterConstruct_of_constructed_nil, constructed_globEvents,
      constructed_translationEvents, released_translationEvents, not_mem_released_globEvents,
      releasedAfterConstruct_translationEvents]
  rcases h9 : ext.ReadFile "@game/static/_mouse.shp" with _ | b9 <;>
    simp only [exec_steps, Nat.reduceAdd, bind_ReadFile_step ext "@game/static/_mouse.shp", h9]
  · simp_arith [Outcome.world, Outcome.fatalMsg, h0, releasedAfterConstruct, released,
      released_append, constructed, constructed_append, Kind.ownsStream,
      releasedAfterConstruct_of_constructed_nil, constructed_globEvents,
      constructed_translationEvents, released_translationEvents, not_mem_released_globEvents,
      releasedAfterConstruct_translationEvents]
  rcases h10 : ext.ReadFile "@game/static/_gumps.flx" with _ | b10 <;>
    simp only [exec_steps, Nat.reduceAdd, bind_ReadFile_step ext "@game/static/_gumps.flx", h10]
  · simp_arith [Outcome.world, Outcome.fatalMsg, h0, releasedAfterConstruct, released,
      released_append, constructed, constructed_append, Kind.ownsStream,
      releasedAfterConstruct_of_constructed_nil, constructed_globEvents,
      constructed_translationEvents, released_translationEvents, not_mem_released_globEvents,
      releasedAfterConstruct_translationEvents]
  rcases h11 : ext.ReadFile "@data/empty.flx" with _ | b11 <;>
    simp only [exec_steps, Nat.reduceAdd, bind_ReadFile_step ext "@data/empty.flx", h11]
  all_goals
    simp_arith [Outcome.world, Outcome.fatalMsg, h0, releasedAfterConstruct, released,
      released_append, constructed, constructed_append, Kind.ownsStream,
      releasedAfterConstruct_of_constructed_nil, constructed_globEvents,
      constructed_translationEvents, released_translationEvents, not_mem_released_globEvents,
      releasedAfterConstruct_translationEvents]

/-- C6, at the failing input: with every file present except `@data/empty.flx`,
`loadRemorseData` does not stop with a fatal error, and it calls the `SoundFlex`
constructor with the null stream that the failed open returned. -/
theorem loadRemorseData_constructs_from_absent_stream :
    (loadRemorseData sampleExtNoEmpty sampleWorld).fatalMsg = none ∧
    Event.openFile "@data/empty.flx" none ∈
      (loadRemorseData sampleExtNoEmpty sampleWorld).world.trace ∧
    (Kind.SoundFlex, none) ∈
      constructed (loadRemorseData sampleExtNoEmpty sampleWorld).world.trace ∧
    (loadRemorseData sampleExtNoEmpty sampleWorld).world.gd._soundFlex =
      some { ids := none } := by
  decide!

/-- C7, at the failing input: with every file present, `loadRemorseData` passes the
stream opened for `@data/empty.flx` (handle 13) to the `SoundFlex` constructor, its
last constructor call, and deletes that same stream in its next statement, its last
deletion; `loadU8Data` on the same input deletes no stream that it gave to an
archive. -/
theorem loadRemorseData_releases_owned_stream :
    releasedAfterConstruct (loadRemorseData sampleExt sampleWorld).world.trace = true ∧
    (constructed (loadRemorseData sampleExt sampleWorld).world.trace).getLast? =
      some (Kind.SoundFlex, some { handle := 13, bytes := [7] }) ∧
    (released (loadRemorseData sampleExt sampleWorld).world.trace).getLast? =
      some (some { handle := 13, bytes := [7] }) ∧
    (loadRemorseData sampleExt sampleWorld).world.trace.getLast? =
      some (Event.release (some { handle := 13, bytes := [7] })) ∧
    (loadRemorseData sampleExt sampleWorld).world.gd._soundFlex =
      some { ids := some { handle := 13, bytes := [7] } } ∧
    releasedAfterConstruct (loadU8Data sampleExt sampleWorld).world.trace = false := by
  decide!

/-! ### The speech cache -/

/-- Sequencing of procedures, unfolded. -/
theorem bind_apply {α β : Type} (m : Proc α) (f : α → Proc β) (w : World) :
    (m >>= f) w = Proc.bind m f w := rfl

/-- The four ways through `getSpeechFlex`, in closed form. -/
theorem getSpeechFlex_eq (ext : Externals) (shapeNum : Nat) (w : World) :
    getSpeechFlex ext shapeNum w =
      if shapeNum ≥ w.gd._speech.length then Outcome.done none w
      else
        match w.gd._speech.getD shapeNum none with
        | some s => Outcome.done s w
        | none =>
          if w.gd._gameInfo.getLanguageFileLetter.toNat = 0 then Outcome.done none w
          else
            match ext.ReadFile (("@game/sound/".push w.gd._gameInfo.getLanguageFileLetter) ++
                (formatInt shapeNum ++ ".flx")) with
            | none =>
              Outcome.done none
                { gd := { w.gd with _speech := w.gd._speech.set shapeNum (some none) },
                  nextHandle := w.nextHandle,
                  trace := w.trace ++
                    [Event.openFile (("@game/sound/".push w.gd._gameInfo.getLanguageFileLetter) ++
                      (formatInt shapeNum ++ ".flx")) none] }
            | some b =>
              Outcome.done (some { ids := some { handle := w.nextHandle, bytes := b } })
                { gd := { w.gd with
                    _speech := w.gd._speech.set shapeNum
                      (some (some { ids := some { handle := w.nextHandle, bytes := b } })) },
                  nextHandle := w.nextHandle + 1,
                  trace := w.trace ++
                    [Event.openFile (("@game/sound/".push w.gd._gameInfo.getLanguageFileLetter) ++
                      (formatInt shapeNum ++ ".flx"))
                      (some { handle := w.nextHandle, bytes := b }),
                     Event.construct Kind.SpeechFlex
                      (some { handle := w.nextHandle, bytes := b })] } := by
  simp only [getSpeechFlex, bind_apply, Proc.bind, getGD]
  by_cases h1 : shapeNum ≥ w.gd._speech.length
  · simp only [h1, if_true]
    rfl
  · simp only [h1, if_false]
    cases hs : w.gd._speech.getD shapeNum none with
    | some s => rfl
    | none =>
      by_cases hl : w.gd._gameInfo.getLanguageFileLetter.toNat = 0
      · simp only [hl, if_true]
        rfl
      · simp only [hl, if_false, bind_apply, Proc.bind, ReadFile]
        cases ext.ReadFile (("@game/sound/".push w.gd._gameInfo.getLanguageFileLetter) ++
          (formatInt shapeNum ++ ".flx")) with
        | none => rfl
        | some b => simp [newSpeechFlex, emit, modifyGD, bind_apply, Proc.bind, pure_step]

/-- A slot that has been looked up is returned as it is. -/
theorem getSpeechFlex_cached (ext : Externals) (shapeNum : Nat) (w : World)
    (s : Option SpeechFlex) (hlt : shapeNum < w.gd._speech.length)
    (hs : w.gd._speech.getD shapeNum none = some s) :
    getSpeechFlex ext shapeNum w = Outcome.done s w := by
  rw [getSpeechFlex_eq]
  have hn : ¬ shapeNum ≥ w.gd._speech.length := by omega
  simp only [hn, if_false, hs]

/-- Reading back the slot that was just written. -/
theorem getD_set_self {α : Type} (l : List α) (n : Nat) (v d : α) (h : n < l.length) :
    (l.set n v).getD n d = v := by
  simp [List.getD_eq_getElem?_getD, h]

/-- The first lookup of a slot when the file letter is known: the result is stored. -/
theorem getSpeechFlex_lookup (ext : Externals) (shapeNum : Nat) (w : World)
    (hlt : shapeNum < w.gd._speech.length)
    (hs : w.gd._speech.getD shapeNum none = none)
    (hl : w.gd._gameInfo.getLanguageFileLetter.toNat ≠ 0) :
    ∃ w1 : World,
      getSpeechFlex ext shapeNum w =
        Outcome.done
          ((ext.ReadFile (("@game/sound/".push w.gd._gameInfo.getLanguageFileLetter) ++
            (formatInt shapeNum ++ ".flx"))).map
              (fun b => { ids := some { handle := w.nextHandle, bytes := b } })) w1 ∧
      w1.gd = { w.gd with
        _speech := w.gd._speech.set shapeNum
          (some ((ext.ReadFile (("@game/sound/".push w.gd._gameInfo.getLanguageFileLetter) ++
            (formatInt shapeNum ++ ".flx"))).map
              (fun b => { ids := some { handle := w.nextHandle, bytes := b } }))) } := by
  have h1 : ¬ shapeNum ≥ w.gd._speech.length := by omega
  rw [getSpeechFlex_eq]
  simp only [h1, if_false, hs, hl]
  cases ext.ReadFile (("@game/sound/".push w.gd._gameInfo.getLanguageFileLetter) ++
    (formatInt shapeNum ++ ".flx")) with
  | none => exact ⟨_, rfl, rfl⟩
  | some b => exact ⟨_, rfl, rfl⟩

/-- What `getSpeechFlex` can change: slot `shapeNum` of `_speech`, and only on a first
lookup with a known file letter. -/
theorem getSpeechFlex_frame (ext : Externals) (shapeNum : Nat) (w : World) :
    ∃ (v : Option SpeechFlex) (w' : World),
      getSpeechFlex ext shapeNum w = Outcome.done v w' ∧
      w'.gd = { w.gd with _speech := w'.gd._speech } ∧
      w'.gd._speech.length = w.gd._speech.length ∧
      (∀ j : Nat, j ≠ shapeNum → w'.gd._speech[j]? = w.gd._speech[j]?) ∧
      (w.gd._speech.length ≤ shapeNum ∨ w.gd._speech.getD shapeNum none ≠ none ∨
        w.gd._gameInfo.getLanguageFileLetter.toNat = 0 → w' = w) := by
  by_cases h1 : shapeNum ≥ w.gd._speech.length
  · refine ⟨none, w, ?_, rfl, rfl, fun _ _ => rfl, fun _ => rfl⟩
    rw [getSpeechFlex_eq]
    simp only [h1, if_true]
  · have hlt : shapeNum < w.gd._speech.length := by omega
    cases hs : w.gd._speech.getD shapeNum none with
    | some s =>
      exact ⟨s, w, getSpeechFlex_cached ext shapeNum w s hlt hs, rfl, rfl, fun _ _ => rfl,
        fun _ => rfl⟩
    | none =>
      by_cases hl : w.gd._gameInfo.getLanguageFileLetter.toNat = 0
      · refine ⟨none, w, ?_, rfl, rfl, fun _ _ => rfl, fun _ => rfl⟩
        rw [getSpeechFlex_eq]
        simp only [h1, if_false, hs, hl, if_true]
      · obtain ⟨w1, e, hgd⟩ := getSpeechFlex_lookup ext shapeNum w hlt hs hl
        refine ⟨_, w1, e, ?_, ?_, ?_, ?_⟩
        · rw [hgd]
        · rw [hgd]
          simp
        · intro j hj
          rw [hgd]
          simp [List.getElem?_set, Ne.symm hj]
        · rintro (h | h | h)
          · omega
          · exact absurd rfl h
          · exact absurd h hl

/-- C9, amended: every query returns; the four `const` queries leave the whole world
as it was; `getSpeechFlex(shapeNum)` leaves every member other than `_speech` as it
was, keeps the size of `_speech` and every slot other than `shapeNum`, and leaves
the world as it was when `shapeNum` is out of range, when the slot had already been
looked up, or when the file letter of the language is unknown. -/
theorem query_frame (ext : Externals) (q : Query) (w : World) :
    ∃ (v : Answer) (w' : World),
      q.exec ext w = Outcome.done v w' ∧
      w'.gd = { w.gd with _speech := w'.gd._speech } ∧
      w'.gd._speech.length = w.gd._speech.length ∧
      ((∀ n : Nat, q ≠ Query.getSpeechFlex n) → w' = w) ∧
      (∀ n : Nat, q = Query.getSpeechFlex n →
        (∀ j : Nat, j ≠ n → w'.gd._speech[j]? = w.gd._speech[j]?) ∧
        (w.gd._speech.length ≤ n ∨ w.gd._speech.getD n none ≠ none ∨
          w.gd._gameInfo.getLanguageFileLetter.toNat = 0 → w' = w)) := by
  cases q with
  | getGlob glob =>
    exact ⟨Answer.glob (w.gd.getGlob glob), w, rfl, rfl, rfl, fun _ => rfl,
      fun n hn => by cases hn⟩
  | getShapeFlex flexId =>
    exact ⟨Answer.shapeFlex (w.gd.getShapeFlex ext flexId), w, rfl, rfl, rfl, fun _ => rfl,
      fun n hn => by cases hn⟩
  | getShape f =>
    exact ⟨Answer.shape (w.gd.getShape ext f), w, rfl, rfl, rfl, fun _ => rfl,
      fun n hn => by cases hn⟩
  | getFrame f =>
    exact ⟨Answer.frame (w.gd.getFrame ext f), w, rfl, rfl, rfl, fun _ => rfl,
      fun n hn => by cases hn⟩
  | getSpeechFlex shapeNum =>
    obtain ⟨v, w', e, h1, h2, h3, h4⟩ := getSpeechFlex_frame ext shapeNum w
    refine ⟨Answer.speechFlex v, w', ?_, h1, h2, ?_, ?_⟩
    · show Proc.bind (getSpeechFlex ext shapeNum) _ w = _
      simp only [Proc.bind, e]
      rfl
    · intro h
      exact absurd rfl (h shapeNum)
    · intro n hn
      cases hn
      exact ⟨h3, h4⟩

/-- C9, counterexample: on a freshly constructed English `GameData` the query
`getSpeechFlex(0)` changes the member `_speech`: slot 0 goes from never looked up
to a cached `SpeechFlex`. -/
theorem getSpeechFlex_changes_speech :
    (Query.exec sampleExt (Query.getSpeechFlex 0) sampleWorld).world.gd ≠ sampleWorld.gd ∧
    sampleWorld.gd._speech.head? = some none ∧
    (Query.exec sampleExt (Query.getSpeechFlex 0) sampleWorld).world.gd._speech.head? =
      some (some (some { ids := some { handle := 0, bytes := [7] } })) := by
  decide!

/-- C10: `getSpeechFlex` returns; a second call right after the first returns the
same value; with a table of 1024 slots a shape number of 1024 or more yields absent
and leaves the world untouched; when the file letter of the language is known the
second call, on any file system, returns the same value and leaves the world, its
trace of opened files included, unchanged; and a speech file that is missing on the
first call leaves the slot cached as looked up and absent. -/
theorem getSpeechFlex_idempotent (ext ext2 : Externals) (shapeNum : Nat) (w : World)
    (hsize : w.gd._speech.length = 1024) :
    ∃ (v : Option SpeechFlex) (w1 : World),
      getSpeechFlex ext shapeNum w = Outcome.done v w1 ∧
      (getSpeechFlex ext shapeNum w1).value = some v ∧
      (1024 ≤ shapeNum → v = none ∧ w1 = w) ∧
      (w.gd._gameInfo.getLanguageFileLetter.toNat ≠ 0 →
        getSpeechFlex ext2 shapeNum w1 = Outcome.done v w1) ∧
      (shapeNum < 1024 → w.gd._speech.getD shapeNum none = none →
        w.gd._gameInfo.getLanguageFileLetter.toNat ≠ 0 →
        ext.ReadFile (("@game/sound/".push w.gd._gameInfo.getLanguageFileLetter) ++
          (formatInt shapeNum ++ ".flx")) = none →
        v = none ∧ w1.gd._speech.getD shapeNum none = some none ∧
        w1.gd._speech.length = 1024) := by
  by_cases h1 : shapeNum ≥ w.gd._speech.length
  · have e : ∀ x : Externals, getSpeechFlex x shapeNum w = Outcome.done none w := by
      intro x
      rw [getSpeechFlex_eq]
      simp only [h1, if_true]
    refine ⟨none, w, e ext, ?_, ?_, ?_, ?_⟩
    · rw [e ext]; rfl
    · intro _; exact ⟨rfl, rfl⟩
    · intro _; exact e ext2
    · intro h2; omega
  · have hlt : shapeNum < w.gd._speech.length := by omega
    cases hs : w.gd._speech.getD shapeNum none with
    | some s =>
      have e : ∀ x : Externals, getSpeechFlex x shapeNum w = Outcome.done s w :=
        fun x => getSpeechFlex_cached x shapeNum w s hlt hs
      refine ⟨s, w, e ext, ?_, ?_, ?_, ?_⟩
      · rw [e ext]; rfl
      · intro h2; omega
      · intro _; exact e ext2
      · intro _ h3; exact absurd h3 (by simp)
    | none =>
      by_cases hl : w.gd._gameInfo.getLanguageFileLetter.toNat = 0
      · have e : ∀ x : Externals, getSpeechFlex x shapeNum w = Outcome.done none w := by
          intro x
          rw [getSpeechFlex_eq]
          simp only [h1, if_false, hs, hl, if_true]
        refine ⟨none, w, e ext, ?_, ?_, ?_, ?_⟩
        · rw [e ext]; rfl
        · intro h2; omega
        · intro h2; exact absurd hl h2
        · intro _ _ h2; exact absurd hl h2
      · obtain ⟨w1, e, hgd⟩ := getSpeechFlex_lookup ext shapeNum w hlt hs hl
        have hlt1 : shapeNum < w1.gd._speech.length := by
          rw [hgd]
          simpa using hlt
        have hs1 : w1.gd._speech.getD shapeNum none =
            some ((ext.ReadFile (("@game/sound/".push w.gd._gameInfo.getLanguageFileLetter) ++
              (formatInt shapeNum ++ ".flx"))).map
                (fun b => { ids := some { handle := w.nextHandle, bytes := b } })) := by
          rw [hgd]
          exact getD_set_self _ _ _ _ hlt
        have e2 : ∀ x : Externals, getSpeechFlex x shapeNum w1 = Outcome.done _ w1 :=
          fun x => getSpeechFlex_cached x shapeNum w1 _ hlt1 hs1
        refine ⟨_, w1, e, ?_, ?_, ?_, ?_⟩
        · rw [e2 ext]; rfl
        · intro h2; omega
        · intro _; exact e2 ext2
        · intro _ _ _ h5
          refine ⟨by rw [h5]; rfl, ?_, ?_⟩
          · rw [hs1, h5]; rfl
          · rw [hgd]
            simpa using hsize

/-- Witness of C10: shape 5 on a freshly constructed English `GameData`, first with
the sample file system and then with an empty one. -/
theorem getSpeechFlex_idempotent_witness :
    sampleWorld.gd._speech.length = 1024 ∧
    ∃ (v : Option SpeechFlex) (w1 : World),
      getSpeechFlex sampleExt 5 sampleWorld = Outcome.done v w1 ∧
      (getSpeechFlex sampleExt 5 w1).value = some v ∧
      (1024 ≤ 5 → v = none ∧ w1 = sampleWorld) ∧
      (sampleWorld.gd._gameInfo.getLanguageFileLetter.toNat ≠ 0 →
        getSpeechFlex sampleExtNoFiles 5 w1 = Outcome.done v w1) ∧
      (5 < 1024 → sampleWorld.gd._speech.getD 5 none = none →
        sampleWorld.gd._gameInfo.getLanguageFileLetter.toNat ≠ 0 →
        sampleExt.ReadFile
          (("@game/sound/".push sampleWorld.gd._gameInfo.getLanguageFileLetter) ++
            (formatInt 5 ++ ".flx")) = none →
        v = none ∧ w1.gd._speech.getD 5 none = some none ∧
        w1.gd._speech.length = 1024) :=
  ⟨by decide!, getSpeechFlex_idempotent sampleExt sampleExtNoFiles 5 sampleWorld (by decide!)⟩

/-! ### Translation of frames -/

/-- Appending one digit to a run of digits. -/
theorem digitsValue_append_single (xs : List Char) (c : Char) :
    digitsValue (xs ++ [c]) = 10 * digitsValue xs + (c.toNat - 48) := by
  simp [digitsValue, List.foldl_append]

/-- The accumulator of `Nat.toDigitsCore` is a suffix of its result. -/
theorem toDigitsCore_append (fuel : Nat) : ∀ (n : Nat) (ds : List Char),
    Nat.toDigitsCore 10 fuel n ds = Nat.toDigitsCore 10 fuel n [] ++ ds := by
  induction fuel with
  | zero => intro n ds; simp [Nat.toDigitsCore]
  | succ k ih =>
    intro n ds
    simp only [Nat.toDigitsCore]
    by_cases h : n / 10 = 0
    · simp [h]
    · simp only [h, if_false]
      rw [ih (n / 10) (Nat.digitChar (n % 10) :: ds), ih (n / 10) [Nat.digitChar (n % 10)]]
      simp

/-- The character of a decimal digit is a digit of that value, and is neither white
space nor a sign. -/
theorem digitChar_spec (d : Nat) (h : d < 10) :
    (Nat.digitChar d).isDigit = true ∧ (Nat.digitChar d).toNat - 48 = d ∧
    isspace (Nat.digitChar d) = false ∧ Nat.digitChar d ≠ '-' ∧ Nat.digitChar d ≠ '+' := by
  interval_cases d <;> decide

/-- With enough fuel the decimal numeral of `n` is a non-empty run of digits that
denotes `n`. -/
theorem toDigitsCore_spec (fuel : Nat) : ∀ (n : Nat), n < fuel →
    Nat.toDigitsCore 10 fuel n [] ≠ [] ∧
    (∀ c ∈ Nat.toDigitsCore 10 fuel n [],
      c.isDigit = true ∧ isspace c = false ∧ c ≠ '-' ∧ c ≠ '+') ∧
    digitsValue (Nat.toDigitsCore 10 fuel n []) = n := by
  induction fuel with
  | zero => intro n h; omega
  | succ k ih =>
    intro n hn
    have hd := digitChar_spec (n % 10) (Nat.mod_lt _ (by decide))
    simp only [Nat.toDigitsCore]
    by_cases h : n / 10 = 0
    · simp only [h, if_true]
      refine ⟨by simp, ?_, ?_⟩
      · intro c hc
        simp at hc
        rw [hc]; exact ⟨hd.1, hd.2.2⟩
      · have := digitsValue_append_single [] (Nat.digitChar (n % 10))
        simp only [List.nil_append] at this
        rw [this, hd.2.1]
        simp [digitsValue]
        omega
    · simp only [h, if_false]
      rw [toDigitsCore_append]
      have hlt : n / 10 < k := by omega
      obtain ⟨h1, h2, h3⟩ := ih (n / 10) hlt
      refine ⟨by simp, ?_, ?_⟩
      · intro c hc
        rw [List.mem_append] at hc
        rcases hc with hc | hc
        · exact h2 c hc
        · simp at hc
          rw [hc]; exact ⟨hd.1, hd.2.2⟩
      · rw [digitsValue_append_single, h3, hd.2.1]
        omega


/-- Nothing is dropped from a list whose first element fails the test. -/
theorem dropWhile_of_takeWhile_nil {α : Type} (p : α → Bool) (l : List α)
    (h : l.takeWhile p = []) : l.dropWhile p = l := by
  cases l with
  | nil => rfl
  | cons a t =>
    by_cases hp : p a = true
    · simp [List.takeWhile_cons, hp] at h
    · simp [List.dropWhile_cons, hp]

/-- The conversion `%u` on a run of digits followed by something that is not a digit
reads the whole run and leaves the rest. -/
theorem scanUnsigned_digits (ds rest : List Char) (hne : ds ≠ [])
    (hd : ∀ c ∈ ds, c.isDigit = true ∧ isspace c = false ∧ c ≠ '-' ∧ c ≠ '+')
    (hrest : rest.takeWhile Char.isDigit = []) :
    scanUnsigned (ds ++ rest) = some (digitsValue ds % 2 ^ 32, rest) := by
  cases ds with
  | nil => exact absurd rfl hne
  | cons d t =>
    have h0 := hd d (List.mem_cons_self d t)
    have hall : ∀ c ∈ d :: t, c.isDigit = true := fun c hc => (hd c hc).1
    have e1 : List.dropWhile isspace (d :: t ++ rest) = d :: t ++ rest := by
      simp [List.dropWhile_cons, h0.2.1]
    have e2 : List.takeWhile Char.isDigit (d :: t ++ rest) = d :: t := by
      rw [List.takeWhile_append_of_pos hall, hrest, List.append_nil]
    have e3 : List.dropWhile Char.isDigit (d :: t ++ rest) = rest := by
      rw [List.dropWhile_append_of_pos hall, dropWhile_of_takeWhile_nil _ _ hrest]
    unfold scanUnsigned
    simp only [e1]
    have e4 : (d :: t ++ rest).head? = some d := rfl
    simp only [e4, Option.some.injEq, h0.2.2.1, h0.2.2.2, or_self, if_false, e2, e3,
      decide_False, List.isEmpty_cons, Bool.false_eq_true]

/-- The characters of the decimal numeral of a number. -/
theorem toString_toList (a : Nat) : (toString a).toList = Nat.toDigits 10 a := rfl

/-- The decimal numeral of `n` is a non-empty run of digits that denotes `n`. -/
theorem toDigits_spec (n : Nat) :
    Nat.toDigits 10 n ≠ [] ∧
    (∀ c ∈ Nat.toDigits 10 n, c.isDigit = true ∧ isspace c = false ∧ c ≠ '-' ∧ c ≠ '+') ∧
    digitsValue (Nat.toDigits 10 n) = n :=
  toDigitsCore_spec (n + 1) n (Nat.lt_succ_self n)

/-- Two decimal numerals below `2 ^ 32` separated by a comma are read by
`sscanf` with `"%u,%u"` as these two numbers. -/
theorem sscanf_u_u_decimal (a b : Nat) (ha : a < 2 ^ 32) (hb : b < 2 ^ 32) :
    sscanf_u_u (toString a ++ "," ++ toString b) = { n := 2, first := a, second := b } := by
  obtain ⟨a1, a2, a3⟩ := toDigits_spec a
  obtain ⟨b1, b2, b3⟩ := toDigits_spec b
  have hl : (toString a ++ "," ++ toString b).toList =
      Nat.toDigits 10 a ++ (',' :: (Nat.toDigits 10 b ++ [])) := by
    show (toString a ++ "," ++ toString b).data = _
    rw [String.data_append, String.data_append]
    show (toString a).toList ++ [','] ++ (toString b).toList = _
    rw [toString_toList, toString_toList]
    simp
  have s1 : scanUnsigned (Nat.toDigits 10 a ++ (',' :: (Nat.toDigits 10 b ++ []))) =
      some (a, ',' :: (Nat.toDigits 10 b ++ [])) := by
    rw [scanUnsigned_digits (Nat.toDigits 10 a) (',' :: (Nat.toDigits 10 b ++ [])) a1 a2
      (by rw [List.takeWhile_cons]; rfl), a3, Nat.mod_eq_of_lt ha]
  have s2 : scanUnsigned (Nat.toDigits 10 b ++ []) = some (b, []) := by
    rw [scanUnsigned_digits (Nat.toDigits 10 b) [] b1 b2 rfl, b3, Nat.mod_eq_of_lt hb]
  unfold sscanf_u_u
  rw [hl]
  simp only [s1, s2, if_true]

/-- Below `2 ^ 31` the conversion `%d` prints the decimal numeral. -/
theorem formatInt_of_lt (n : Nat) (h : n < 2 ^ 31) : formatInt n = toString n := by
  have h2 : n % 2 ^ 32 = n := Nat.mod_eq_of_lt (by omega)
  simp only [formatInt, h2, h, if_true]

/-- The result of `translate` in closed form. -/
theorem translate_eq (ext : Externals) (config : ConfigFileManager)
    (sscanf : String → Scanned) (f : FrameID) :
    translate ext config sscanf f =
      (if f._flexId = ext.flex.GUMPS ∧
          config.exists_ ("language/_gumps/" ++ formatInt f._shapeNum ++ "," ++
            formatInt f._frameNum) = true ∧
          (sscanf ((config.get ("language/_gumps/" ++ formatInt f._shapeNum ++ "," ++
            formatInt f._frameNum)).getD "")).n = 2 then
        { _flexId := f._flexId,
          _shapeNum := (sscanf ((config.get ("language/_gumps/" ++ formatInt f._shapeNum ++ "," ++
            formatInt f._frameNum)).getD "")).first,
          _frameNum := (sscanf ((config.get ("language/_gumps/" ++ formatInt f._shapeNum ++ "," ++
            formatInt f._frameNum)).getD "")).second }
      else f) := by
  have hk : "language/" ++ "_gumps/" ++ (formatInt f._shapeNum ++ "," ++ formatInt f._frameNum) =
      "language/_gumps/" ++ formatInt f._shapeNum ++ "," ++ formatInt f._frameNum := by
    rw [show ("language/" ++ "_gumps/" : String) = "language/_gumps/" from by decide]
    simp only [String.append_assoc]
  unfold translate
  simp only [hk]
  by_cases h1 : f._flexId = ext.flex.GUMPS
  · by_cases h2 : config.exists_ ("language/_gumps/" ++ formatInt f._shapeNum ++ "," ++
        formatInt f._frameNum) = true
    · by_cases h3 : (sscanf ((config.get ("language/_gumps/" ++ formatInt f._shapeNum ++ "," ++
          formatInt f._frameNum)).getD "")).n = 2
      · simp [h1, h2, h3]
      · simp [h1, h2, h3]
    · simp [h1, h2]
  · simp [h1]

/-- A decimal digit is neither white space nor a sign. -/
theorem isDigit_facts (c : Char) (h : c.isDigit = true) :
    isspace c = false ∧ c ≠ '-' ∧ c ≠ '+' := by
  have h2 : 48 ≤ c.toNat ∧ c.toNat ≤ 57 := by
    simp only [Char.isDigit, Bool.and_eq_true, decide_eq_true_eq] at h
    exact ⟨h.1, h.2⟩
  refine ⟨?_, ?_, ?_⟩
  · simp only [isspace, Bool.or_eq_false_iff, decide_eq_false_iff_not, Bool.and_eq_false_iff]
    omega
  · intro e; rw [e] at h2; revert h2; decide
  · intro e; rw [e] at h2; revert h2; decide


/-- The conversion `%u` skips leading white space. -/
theorem scanUnsigned_skip (ws x : List Char) (h : ∀ c ∈ ws, isspace c = true) :
    scanUnsigned (ws ++ x) = scanUnsigned x := by
  unfold scanUnsigned
  rw [List.dropWhile_append_of_pos h]

/-- No digit is taken from a text that does not start with one. -/
theorem takeWhile_nil_of_not_startsWithDigit (rest : List Char)
    (h : startsWithDigit rest = false) : rest.takeWhile Char.isDigit = [] := by
  cases rest with
  | nil => rfl
  | cons c r =>
    simp only [startsWithDigit] at h
    simp [List.takeWhile_cons, h]

/-- The conversion `%u` on a sign followed by a run of digits. -/
theorem scanUnsigned_signed (c : Char) (ds rest : List Char) (hc : c = '-' ∨ c = '+')
    (hne : ds ≠ []) (hd : ∀ x ∈ ds, x.isDigit = true)
    (hrest : rest.takeWhile Char.isDigit = []) :
    scanUnsigned (c :: (ds ++ rest)) =
      some ((if c = '-' then (2 ^ 32 - digitsValue ds % 2 ^ 32) % 2 ^ 32
        else digitsValue ds % 2 ^ 32), rest) := by
  have hsp : isspace c = false := by rcases hc with h | h <;> rw [h] <;> decide
  have e1 : List.dropWhile isspace (c :: (ds ++ rest)) = c :: (ds ++ rest) := by
    simp [List.dropWhile_cons, hsp]
  have e2 : List.takeWhile Char.isDigit (ds ++ rest) = ds := by
    rw [List.takeWhile_append_of_pos hd, hrest, List.append_nil]
  have e3 : List.dropWhile Char.isDigit (ds ++ rest) = rest := by
    rw [List.dropWhile_append_of_pos hd, dropWhile_of_takeWhile_nil _ _ hrest]
  have e5 : ds.isEmpty = false := by cases ds with
    | nil => exact absurd rfl hne
    | cons _ _ => rfl
  unfold scanUnsigned
  simp only [e1, List.head?_cons, Option.some.injEq, hc, if_true, List.tail_cons, e2, e3, e5,
    Bool.false_eq_true, if_false, decide_eq_true_eq]

/-- The conversion `%u` reads a well-formed number text in full and stops where the
digits end. -/
theorem scanUnsigned_text (t : NumberText) (rest : List Char) (hw : t.wellFormed = true)
    (hr : startsWithDigit rest = false) :
    scanUnsigned (t.text ++ rest) =
      some ((if t.sign = ['-'] then (2 ^ 32 - digitsValue t.digits % 2 ^ 32) % 2 ^ 32
        else digitsValue t.digits % 2 ^ 32), rest) := by
  simp only [NumberText.wellFormed, Bool.and_eq_true, Bool.or_eq_true, decide_eq_true_eq,
    List.all_eq_true, Bool.not_eq_true', List.isEmpty_eq_false] at hw
  obtain ⟨⟨⟨hs, hsg⟩, hne⟩, hd⟩ := hw
  have hne2 : t.digits ≠ [] := by
    intro e; rw [e] at hne; simp at hne
  have hrest := takeWhile_nil_of_not_startsWithDigit rest hr
  simp only [NumberText.text, List.append_assoc]
  rw [scanUnsigned_skip _ _ hs]
  rcases hsg with (h | h) | h
  · rw [h, List.nil_append, scanUnsigned_digits _ _ hne2
      (fun c hc => ⟨hd c hc, isDigit_facts c (hd c hc)⟩) hrest]
    simp
  · rw [h]
    show scanUnsigned ('-' :: (t.digits ++ rest)) = _
    rw [scanUnsigned_signed _ _ _ (Or.inl rfl) hne2 hd hrest]
    simp
  · rw [h]
    show scanUnsigned ('+' :: (t.digits ++ rest)) = _
    rw [scanUnsigned_signed _ _ _ (Or.inr rfl) hne2 hd hrest]
    simp


/-- What is left after a run of digits does not start with a digit. -/
theorem startsWithDigit_dropWhile (l : List Char) :
    startsWithDigit (l.dropWhile Char.isDigit) = false := by
  have h := List.head?_dropWhile_not Char.isDigit l
  cases hl : l.dropWhile Char.isDigit with
  | nil => rfl
  | cons c r =>
    rw [hl] at h
    simpa [startsWithDigit] using h

/-- The parts the conversion `%u` goes through form a well-formed number text. -/
theorem wellFormed_parts (ws sg s2 : List Char)
    (hws : ∀ c ∈ ws, isspace c = true)
    (hsg : sg = [] ∨ sg = ['-'] ∨ sg = ['+'])
    (hne : (s2.takeWhile Char.isDigit).isEmpty = false) :
    NumberText.wellFormed
      { space := ws, sign := sg, digits := s2.takeWhile Char.isDigit } = true := by
  simp only [NumberText.wellFormed, Bool.and_eq_true, Bool.or_eq_true, decide_eq_true_eq,
    List.all_eq_true, Bool.not_eq_true', hne, List.all_takeWhile, and_true]
  refine ⟨hws, ?_⟩
  rcases hsg with h | h | h
  · exact Or.inl (Or.inl h)
  · exact Or.inl (Or.inr h)
  · exact Or.inr h

/-- Whatever the conversion `%u` reads is a well-formed number text, and the rest of
the input does not start with a digit. -/
theorem scanUnsigned_sound (s rest : List Char) (a : Nat)
    (h : scanUnsigned s = some (a, rest)) :
    ∃ t : NumberText, t.wellFormed = true ∧ s = t.text ++ rest ∧
      startsWithDigit rest = false ∧
      a = (if t.sign = ['-'] then (2 ^ 32 - digitsValue t.digits % 2 ^ 32) % 2 ^ 32
        else digitsValue t.digits % 2 ^ 32) := by
  have hsplit : s = List.takeWhile isspace s ++ List.dropWhile isspace s :=
    (List.takeWhile_append_dropWhile isspace s).symm
  have hws : ∀ c ∈ List.takeWhile isspace s, isspace c = true :=
    fun c hc => List.mem_takeWhile_imp hc
  unfold scanUnsigned at h
  cases hs1 : List.dropWhile isspace s with
  | nil =>
    simp [hs1] at h
  | cons c s2 =>
    simp only [hs1, List.head?_cons, Option.some.injEq, List.tail_cons] at h
    by_cases hm : c = '-'
    · subst hm
      simp only [true_or, if_true, decide_True] at h
      by_cases he : (List.takeWhile Char.isDigit s2).isEmpty = true
      · simp [he] at h
      · simp only [he, Bool.false_eq_true, if_false, Option.some.injEq, Prod.mk.injEq] at h
        refine ⟨{ space := List.takeWhile isspace s, sign := ['-'],
                  digits := s2.takeWhile Char.isDigit }, ?_, ?_, ?_, ?_⟩
        · exact wellFormed_parts _ _ s2 hws (Or.inr (Or.inl rfl)) (by simpa using he)
        · rw [← h.2]
          simp only [NumberText.text, List.append_assoc, List.takeWhile_append_dropWhile]
          rw [List.cons_append, List.nil_append, ← hs1, List.takeWhile_append_dropWhile]
        · rw [← h.2]; exact startsWithDigit_dropWhile s2
        · simp [← h.1]
    · by_cases hp : c = '+'
      · subst hp
        simp only [or_true, if_true] at h
        by_cases he : (List.takeWhile Char.isDigit s2).isEmpty = true
        · simp [he] at h
        · simp only [he, Bool.false_eq_true, if_false, Option.some.injEq, Prod.mk.injEq] at h
          refine ⟨{ space := List.takeWhile isspace s, sign := ['+'],
                    digits := s2.takeWhile Char.isDigit }, ?_, ?_, ?_, ?_⟩
          · exact wellFormed_parts _ _ s2 hws (Or.inr (Or.inr rfl)) (by simpa using he)
          · rw [← h.2]
            simp only [NumberText.text, List.append_assoc, List.takeWhile_append_dropWhile]
            rw [List.cons_append, List.nil_append, ← hs1, List.takeWhile_append_dropWhile]
          · rw [← h.2]; exact startsWithDigit_dropWhile s2
          · have : ¬ (['+'] = ['-']) := by decide
            simp [← h.1]
      · simp only [hm, hp, or_self, if_false, decide_False, Bool.false_eq_true] at h
        by_cases he : (List.takeWhile Char.isDigit (c :: s2)).isEmpty = true
        · simp [he] at h
        · simp only [he, Bool.false_eq_true, if_false, Option.some.injEq, Prod.mk.injEq] at h
          refine ⟨{ space := List.takeWhile isspace s, sign := [],
                    digits := (c :: s2).takeWhile Char.isDigit }, ?_, ?_, ?_, ?_⟩
          · exact wellFormed_parts _ _ (c :: s2) hws (Or.inl rfl) (by simpa using he)
          · rw [← h.2]
            simp only [NumberText.text, List.append_assoc, List.takeWhile_append_dropWhile,
              List.nil_append]
            rw [← hs1, List.takeWhile_append_dropWhile]
          · rw [← h.2]; exact startsWithDigit_dropWhile (c :: s2)
          · simp [← h.1]


/-- On two well-formed number texts separated by a comma `sscanf` with `"%u,%u"`
assigns both targets, whatever follows the second text. -/
theorem sscanf_u_u_text (str : String) (t1 t2 : NumberText) (rest : List Char)
    (h1 : t1.wellFormed = true) (h2 : t2.wellFormed = true)
    (hr : startsWithDigit rest = false)
    (hv : str.toList = t1.text ++ ',' :: (t2.text ++ rest)) :
    sscanf_u_u str =
      { n := 2,
        first := (if t1.sign = ['-'] then (2 ^ 32 - digitsValue t1.digits % 2 ^ 32) % 2 ^ 32
          else digitsValue t1.digits % 2 ^ 32),
        second := (if t2.sign = ['-'] then (2 ^ 32 - digitsValue t2.digits % 2 ^ 32) % 2 ^ 32
          else digitsValue t2.digits % 2 ^ 32) } := by
  unfold sscanf_u_u
  rw [hv, scanUnsigned_text t1 (',' :: (t2.text ++ rest)) h1 rfl]
  simp only [if_true]
  rw [scanUnsigned_text t2 rest h2 hr]

/-- When `sscanf` with `"%u,%u"` returns 2 the input starts with two well-formed
number texts separated by a comma. -/
theorem sscanf_u_u_two (str : String) (h : (sscanf_u_u str).n = 2) :
    ∃ (t1 t2 : NumberText) (rest : List Char), t1.wellFormed = true ∧ t2.wellFormed = true ∧
      startsWithDigit rest = false ∧ str.toList = t1.text ++ ',' :: (t2.text ++ rest) := by
  unfold sscanf_u_u at h
  cases hs : scanUnsigned str.toList with
  | none =>
    rw [hs] at h
    simp only at h
    split at h <;> simp at h
  | some p =>
    obtain ⟨a, r1⟩ := p
    rw [hs] at h
    cases r1 with
    | nil => simp at h
    | cons c r2 =>
      simp only at h
      by_cases hc : c = ','
      · simp only [hc, if_true] at h
        cases hs2 : scanUnsigned r2 with
        | none => rw [hs2] at h; simp at h
        | some q =>
          obtain ⟨b, r3⟩ := q
          obtain ⟨t1, w1, e1, -, -⟩ := scanUnsigned_sound _ _ _ hs
          obtain ⟨t2, w2, e2, d2, -⟩ := scanUnsigned_sound _ _ _ hs2
          exact ⟨t1, t2, r3, w1, w2, d2, by rw [e1, hc, ← e2]⟩
      · simp [hc] at h

/-- The number stored for a text whose digits fit 32 bits. -/
theorem value_of_inRange (t : NumberText) (h : t.inRange = true) :
    (if t.sign = ['-'] then (2 ^ 32 - digitsValue t.digits % 2 ^ 32) % 2 ^ 32
      else digitsValue t.digits % 2 ^ 32) = t.value := by
  simp only [NumberText.inRange, decide_eq_true_eq] at h
  simp only [NumberText.value, Nat.mod_eq_of_lt h]

/-- C11, amended: `translate(f)` never changes the archive kind: for every frame `f`
and every configuration the result has the `_flexId` of `f`, whatever `sscanf`
does. The result is `f` itself unless `f._flexId` is `GUMPS`, the configuration
holds an entry under the key `language/_gumps/<shapeNum>,<frameNum>`, both numbers
as `%d` prints them (signed 32-bit, which below `2 ^ 31` is the decimal numeral),
and the value of that entry starts with two number texts separated by a comma as
`sscanf` with `"%u,%u"` reads them: each is optional white space, an optional sign
and a non-empty run of digits, and what follows the second one is not looked at.
When it does and both runs of digits denote numbers below `2 ^ 32`, the result is
`f._flexId` with the two numbers, a number after a minus sign negated modulo
`2 ^ 32`. -/
theorem translate_keeps_flexId (ext : Externals) (config : ConfigFileManager) (f : FrameID) :
    let key := "language/_gumps/" ++ formatInt f._shapeNum ++ "," ++ formatInt f._frameNum
    let v := ((config.get key).getD "").toList
    (∀ sscanf : String → Scanned, (translate ext config sscanf f)._flexId = f._flexId) ∧
    (¬ (f._flexId = ext.flex.GUMPS ∧ config.exists_ key = true ∧
        ∃ (t1 t2 : NumberText) (rest : List Char),
          t1.wellFormed = true ∧ t2.wellFormed = true ∧ startsWithDigit rest = false ∧
          v = t1.text ++ ',' :: (t2.text ++ rest)) →
      translate ext config sscanf_u_u f = f) ∧
    (∀ (t1 t2 : NumberText) (rest : List Char),
      f._flexId = ext.flex.GUMPS → config.exists_ key = true →
      t1.wellFormed = true → t2.wellFormed = true → startsWithDigit rest = false →
      v = t1.text ++ ',' :: (t2.text ++ rest) →
      t1.inRange = true → t2.inRange = true →
      translate ext config sscanf_u_u f =
        { _flexId := f._flexId, _shapeNum := t1.value, _frameNum := t2.value }) ∧
    (f._shapeNum < 2 ^ 31 → f._frameNum < 2 ^ 31 →
      key = "language/_gumps/" ++ toString f._shapeNum ++ "," ++ toString f._frameNum) := by
  intro key v
  refine ⟨?_, ?_, ?_, ?_⟩
  · intro sscanf
    rw [translate_eq]
    split <;> rfl
  · intro hn
    rw [translate_eq]
    split
    · rename_i hc
      exact absurd ⟨hc.1, hc.2.1, sscanf_u_u_two _ hc.2.2⟩ hn
    · rfl
  · intro t1 t2 rest hg he w1 w2 hr hv r1 r2
    have hs := sscanf_u_u_text _ t1 t2 rest w1 w2 hr hv
    rw [value_of_inRange t1 r1, value_of_inRange t2 r2] at hs
    have he2 : config.exists_ ("language/_gumps/" ++ formatInt f._shapeNum ++ "," ++
        formatInt f._frameNum) = true := he
    rw [translate_eq, hs]
    simp [hg, he2]
  · intro hs hf
    show "language/_gumps/" ++ formatInt f._shapeNum ++ "," ++ formatInt f._frameNum = _
    rw [formatInt_of_lt _ hs, formatInt_of_lt _ hf]

/-- C11 at a sample input: gump 1, frame 2 with the value `7,8`, two number texts
without white space or sign, is translated to gump 7, frame 8, and keeps its kind. -/
theorem translate_keeps_flexId_witness :
    translate sampleExt sampleConfig sscanf_u_u ⟨2, 1, 2⟩ = ⟨2, 7, 8⟩ ∧
    (translate sampleExt sampleConfig sscanf_u_u ⟨2, 1, 2⟩)._flexId = 2 :=
  ⟨(translate_keeps_flexId sampleExt sampleConfig ⟨2, 1, 2⟩).2.2.1
      { space := [], sign := [], digits := ['7'] } { space := [], sign := [], digits := ['8'] } []
      (by decide) (by decide!) (by decide) (by decide) (by decide) (by decide!)
      (by decide) (by decide),
    (translate_keeps_flexId sampleExt sampleConfig ⟨2, 1, 2⟩).1 sscanf_u_u⟩

/-- C11, counterexample: the translation differs from the one the specification
words. The value `7,8,9` is not exactly two numbers, yet gump 1, frame 2 is
translated to gump 7, frame 8; the value ` -1,+5` holds white space and signs, yet
gump 3, frame 4 is translated to gump 4294967295, frame 5; and for shape number
2147483648 the entry under the decimal numerals is not found, because the key is
printed as `-2147483648,0`, so that the frame stays as it is. -/
theorem translate_differs_from_specTranslate :
    translate sampleExt sampleConfigLoose sscanf_u_u ⟨2, 1, 2⟩ ≠
      specTranslate sampleExt sampleConfigLoose ⟨2, 1, 2⟩ ∧
    translate sampleExt sampleConfigLoose sscanf_u_u ⟨2, 1, 2⟩ = ⟨2, 7, 8⟩ ∧
    specTranslate sampleExt sampleConfigLoose ⟨2, 1, 2⟩ = ⟨2, 1, 2⟩ ∧
    translate sampleExt sampleConfigLoose sscanf_u_u ⟨2, 3, 4⟩ = ⟨2, 4294967295, 5⟩ ∧
    specTranslate sampleExt sampleConfigLoose ⟨2, 3, 4⟩ = ⟨2, 3, 4⟩ ∧
    translate sampleExt sampleConfigLoose sscanf_u_u ⟨2, 2147483648, 0⟩ = ⟨2, 2147483648, 0⟩ ∧
    specTranslate sampleExt sampleConfigLoose ⟨2, 2147483648, 0⟩ = ⟨2, 7, 8⟩ := by
  decide!

/-- Sample runs of `translate`: a translated gump frame, an entry whose value holds
one number only, a frame of the main shapes, and a gump frame without entry. -/
theorem translate_sample :
    translate sampleExt sampleConfig sscanf_u_u ⟨2, 1, 2⟩ = ⟨2, 7, 8⟩ ∧
    translate sampleExt sampleConfig sscanf_u_u ⟨2, 3, 4⟩ = ⟨2, 3, 4⟩ ∧
    translate sampleExt sampleConfig sscanf_u_u ⟨1, 1, 2⟩ = ⟨1, 1, 2⟩ ∧
    translate sampleExt sampleConfig sscanf_u_u ⟨2, 5, 5⟩ = ⟨2, 5, 5⟩ := by
  decide!

end Ultima8
